import Mathlib

/-!
# Verification of the wall-bounce dialogue orchestration engine

A shallow embedding of the JavaScript sources:

* `src/utils/validation.js` — `validateAndSanitizeInput`, `validateMessages`,
  `validateAndClampNumber`;
* `src/services/wall-bounce.js` — `WallBounceService.conductWallBounce` and its
  prompt/summary template helpers;
* `src/providers/openai-provider.js` — the request construction of
  `OpenAIProvider.chatCompletion`;
* the Gemini provider (`convertMessages`, `generateContent`).

Modelling conventions:

* A JavaScript string is a `List Nat` of its code points.  `jstr` converts a
  Lean string literal to this representation.
* A JavaScript number is a `JsNum`: either `NaN` or a finite value, modelled as
  an exact rational.  (IEEE-754 rounding is not modelled; no verified claim
  depends on it.)  A JavaScript value that might not be a number at all is an
  `Option JsNum`, with `none` standing for any value of a non-number type.
* A JavaScript value that might not be a string is an `Option (List Nat)`.
* Thrown `Error`s are represented by their `message` strings, via `Except`.
* The two providers, as seen from the engine, are an external world: an
  availability bit per provider plus an oracle giving the result (returned
  text or thrown message) of the completion call made in each round.  The
  engine records every completion call it issues in a `CallEvent` list.
-/

/-- Code points of a Lean string literal, used for JS string literals. -/
def jstr (s : String) : List Nat :=
  s.data.map Char.toNat

/-- A JavaScript number: `NaN` or a finite value (exact rational). -/
inductive JsNum where
  | nan : JsNum
  | num (q : ℚ) : JsNum
deriving DecidableEq

/-- `Math.max`: `NaN` if either argument is `NaN`. -/
def jsMax : JsNum → JsNum → JsNum
  | JsNum.num a, JsNum.num b => JsNum.num (max a b)
  | _, _ => JsNum.nan

/-- `Math.min`: `NaN` if either argument is `NaN`. -/
def jsMin : JsNum → JsNum → JsNum
  | JsNum.num a, JsNum.num b => JsNum.num (min a b)
  | _, _ => JsNum.nan

/-- `validateAndClampNumber(value, min, max, defaultValue)` from
`src/utils/validation.js` lines 59-62: a non-number (`none`) is replaced by the
default, then `Math.min(Math.max(num, min), max)`.  `NaN` has type `number`, so
it is NOT replaced by the default, and it propagates through `Math.max` and
`Math.min`. -/
def validateAndClampNumber (value : Option JsNum) (lo hi defaultValue : JsNum) : JsNum :=
  let n := match value with
    | some v => v
    | none => defaultValue
  jsMin (jsMax n lo) hi

/-- The characters removed by the sanitization regex
`/[\x00-\x08\x0B\x0C\x0E-\x1F\x7F]/g` in `validateAndSanitizeInput`. -/
def isStrippedControl (c : Nat) : Bool :=
  (c ≤ 8) || (c = 11) || (c = 12) || (14 ≤ c && c ≤ 31) || (c = 127)

/-- `input.replace(/[\x00-\x08\x0B\x0C\x0E-\x1F\x7F]/g, '')`. -/
def stripControls (s : List Nat) : List Nat :=
  s.filter (fun c => !(isStrippedControl c))

/-- The JavaScript whitespace class trimmed by `String.prototype.trim`:
tab through carriage return, space, NBSP, and the Unicode space separators,
line/paragraph separators and BOM. -/
def isJsWhitespace (c : Nat) : Bool :=
  (9 ≤ c && c ≤ 13) || (c = 32) || (c = 160) || (c = 5760) ||
  (8192 ≤ c && c ≤ 8202) || (c = 8232) || (c = 8233) || (c = 8239) ||
  (c = 8287) || (c = 12288) || (c = 65279)

/-- Leading-whitespace removal (the left half of `trim`). -/
def trimLeft (s : List Nat) : List Nat :=
  s.dropWhile isJsWhitespace

/-- Trailing-whitespace removal (the right half of `trim`). -/
def trimRight (s : List Nat) : List Nat :=
  (s.reverse.dropWhile isJsWhitespace).reverse

/-- `String.prototype.trim`. -/
def jsTrim (s : List Nat) : List Nat :=
  trimRight (trimLeft s)

/-- The pure sanitization step of `validateAndSanitizeInput`:
strip the control characters, then trim surrounding whitespace. -/
def sanitizeString (s : List Nat) : List Nat :=
  jsTrim (stripControls s)

/-- Decimal digits of a natural number, most significant first, as code
points.  Written with explicit structural fuel so that it reduces inside
`decide`/`rfl`; `natDigits` supplies enough fuel for the whole number. -/
def natDigitsAux : Nat → Nat → List Nat → List Nat
  | 0, _, acc => acc
  | fuel + 1, n, acc =>
    if n < 10 then (48 + n) :: acc
    else natDigitsAux fuel (n / 10) ((48 + n % 10) :: acc)

/-- Decimal rendering of a natural number, as code points.  This is how a
JavaScript template literal renders a non-negative integer. -/
def natDigits (n : Nat) : List Nat :=
  natDigitsAux (n + 1) n []

/-- Decimal rendering of an integer (a leading `-` for negatives). -/
def intDigits (i : Int) : List Nat :=
  (if i < 0 then [45] else []) ++ natDigits i.natAbs

/-- Rendering of a `JsNum` in a template literal.  `NaN` renders as `"NaN"`
and an integer in the usual decimal way, exactly as JavaScript does.  A
non-integer is rendered here as an exact fraction `num/den`; JavaScript would
use the shortest-round-trip decimal instead, but no verified claim inspects
the rendering of a non-integer. -/
def jsNumToString : JsNum → List Nat
  | JsNum.nan => jstr "NaN"
  | JsNum.num q =>
    if q.den = 1 then intDigits q.num
    else intDigits q.num ++ [47] ++ natDigits q.den

/-- Message of the `Error` thrown by `validateAndSanitizeInput` for a missing,
non-string or falsy input. -/
def msgInvalidInput : List Nat :=
  jstr "Input must be a non-empty string"

/-- Message of the `Error` thrown when sanitization leaves nothing. -/
def msgEmptyAfterSanitization : List Nat :=
  jstr "Input cannot be empty after sanitization"

/-- Message of the `Error` thrown when the sanitized input is longer than
`maxLength` (the template interpolates the limit). -/
def msgTooLong (maxLength : Nat) : List Nat :=
  jstr "Input too long. Maximum " ++ natDigits maxLength ++ jstr " characters allowed"

/-- `validateAndSanitizeInput(input, maxLength)` from `src/utils/validation.js`
lines 12-29.  `none` models an argument that is not a string; an empty string
is falsy, so it also fails the `!input || typeof input !== 'string'` test.
Then the control characters are removed and the result trimmed; an empty
result or one longer than `maxLength` throws. -/
def validateAndSanitizeInput (input : Option (List Nat)) (maxLength : Nat) :
    Except (List Nat) (List Nat) :=
  match input with
  | none => Except.error msgInvalidInput
  | some s =>
    if s.isEmpty then Except.error msgInvalidInput
    else
      let sanitized := sanitizeString s
      if sanitized.length = 0 then Except.error msgEmptyAfterSanitization
      else if maxLength < sanitized.length then Except.error (msgTooLong maxLength)
      else Except.ok sanitized

/-- A message object as the providers see it: a `role`, a string `content`,
and whatever extra fields the caller put on the object (kept abstractly as a
key/value list, so that object spreads can be modelled). -/
structure JMsg where
  role : List Nat
  content : List Nat
  extra : List (List Nat × List Nat)
deriving DecidableEq

/-- `validateMessages(messages)` from `src/utils/validation.js` lines 36-49:
each entry must have truthy string content (an empty string is falsy), the
content is sanitized with the default maximum length 10000, and all other
fields are spread through unchanged. -/
def validateMessages (messages : List JMsg) : Except (List Nat) (List JMsg) :=
  messages.mapM fun msg =>
    if msg.content.isEmpty then
      Except.error (jstr "Message content must be a non-empty string")
    else
      match validateAndSanitizeInput (some msg.content) 10000 with
      | Except.error e => Except.error e
      | Except.ok s => Except.ok { msg with content := s }

/-- `GeminiProvider.convertMessages` (lines 86-97 of the concatenated
validation/provider source): `system` and `user` entries are rebuilt as
literal `{role, content}` objects, `assistant` entries are rebuilt with role
`model`, and any other entry is returned as a spread copy `{...msg}`. -/
def convertMessages (messages : List JMsg) : List JMsg :=
  messages.map fun msg =>
    if msg.role = jstr "system" then
      { role := jstr "system", content := msg.content, extra := [] }
    else if msg.role = jstr "user" then
      { role := jstr "user", content := msg.content, extra := [] }
    else if msg.role = jstr "assistant" then
      { role := jstr "model", content := msg.content, extra := [] }
    else
      msg

/-- Is `p` a prefix of `s`?  (`String.prototype.startsWith`.) -/
def startsWith : List Nat → List Nat → Bool
  | [], _ => true
  | _ :: _, [] => false
  | p :: ps, c :: cs => if p = c then startsWith ps cs else false

/-- Does `pat` occur as a contiguous substring of `s`?
(`String.prototype.includes`.) -/
def containsSub (pat : List Nat) : List Nat → Bool
  | [] => startsWith pat []
  | c :: cs => startsWith pat (c :: cs) || containsSub pat cs

/-- Number of positions of `s` at which `pat` starts (occurrences may
overlap; for the marker patterns used below they cannot). -/
def countSub (pat : List Nat) : List Nat → Nat
  | [] => 0
  | c :: cs => (if startsWith pat (c :: cs) then 1 else 0) + countSub pat cs

/-- Number of lines of `s` beginning with `marker`: the start of `s` plus
every position right after a newline. -/
def lineCount (marker s : List Nat) : Nat :=
  (if startsWith marker s then 1 else 0) + countSub (10 :: marker) s


/-- A `{role, content}` entry of the engine's conversation array. -/
structure ChatMsg where
  role : List Nat
  content : List Nat
deriving DecidableEq

/-- The engine's view of its two providers: the availability bits and, for
each round, the outcome of the completion call issued in that round
(`Except.error` models a thrown `Error`, carrying its message).  Indexing the
oracle by round number is fully general for this engine, which makes exactly
one call per provider per round. -/
structure Providers where
  openaiAvailable : Bool
  geminiAvailable : Bool
  openaiResult : Nat → Except (List Nat) (List Nat)
  geminiResult : Nat → Except (List Nat) (List Nat)

/-- A completion call issued by the engine, with the arguments it passed:
`getOpenAIResponse` forwards `(model1, conversation, temperature, 1500)` to
`openaiProvider.chatCompletion`, and `getGeminiResponse` forwards
`(model2, prompt, temperature, 1500)` to `geminiProvider.generateContent`. -/
inductive CallEvent where
  | openaiCall (conversation : List ChatMsg) (temperature : JsNum) (maxTokens : JsNum)
  | geminiCall (prompt : List Nat) (temperature : JsNum) (maxOutputTokens : JsNum)
deriving DecidableEq

/-- The temperature argument of a recorded completion call. -/
def eventTemp : CallEvent → JsNum
  | CallEvent.openaiCall _ t _ => t
  | CallEvent.geminiCall _ t _ => t

/-- Result of one `conductWallBounce` call: a raised error (its message) or a
returned transcript string. -/
inductive WBOutcome where
  | raised (msg : List Nat)
  | returned (transcript : List Nat)
deriving DecidableEq

/-- `createInitialPrompt(topic)` of `wall-bounce.js`. -/
def createInitialPrompt (topic : List Nat) : List Nat :=
  jstr "あなたは技術的な議論や問題解決に参加している専門家です。以下のトピックについて、建設的で洞察に富んだ議論を行ってください。別のAIモデルとの対話を通じて、アイデアを発展させ、新しい視点を提供してください。\n\nトピック: " ++
    topic ++ jstr "\n\nこのトピックについてあなたの最初の見解や質問を述べてください。"

/-- `createGeminiPrompt(previousResponse)` of `wall-bounce.js`: quotes the
previous model's response verbatim between ASCII double quotes. -/
def createGeminiPrompt (previousResponse : List Nat) : List Nat :=
  jstr "あなたは技術的な議論に参加している別の専門家です。前のAIモデルの発言に対して応答し、議論を発展させてください。異なる視点や代替案を提供し、建設的な対話を続けてください。\n\n前のモデルの発言:\n\"" ++
    previousResponse ++ jstr "\"\n\nこの発言に対するあなたの応答、質問、または追加の洞察を提供してください。"

/-- The synthetic user turn appended to the conversation after each round
(`wall-bounce.js` line 71), quoting Gemini's response verbatim. -/
def nextPrompt (geminiResponse : List Nat) : List Nat :=
  jstr "別の専門家からの応答: \"" ++ geminiResponse ++
    jstr "\"\n\nこの応答を踏まえて、さらに議論を発展させてください。"

/-- `createSummary(model1, model2, rounds, topic)` of `wall-bounce.js`. -/
def createSummary (model1 model2 : List Nat) (rounds : JsNum) (topic : List Nat) : List Nat :=
  jstr "## Summary\n\nこの壁打ちセッションでは、" ++ model1 ++ jstr "と" ++ model2 ++
    jstr "が" ++ jsNumToString rounds ++ jstr "ラウンドにわたって「" ++ topic ++
    jstr "」について議論しました。両モデルが異なる視点と専門知識を提供し、包括的な対話が行われました。"

/-- The transcript header `# Wall Bounce Discussion: ${topic}\n\n`. -/
def headerStr (topic : List Nat) : List Nat :=
  jstr "# Wall Bounce Discussion: " ++ topic ++ jstr "\n\n"

/-- The `## Round ${round}\n\n` section header. -/
def roundHeaderStr (round : Nat) : List Nat :=
  jstr "## Round " ++ natDigits round ++ jstr "\n\n"

/-- The `### ${model}:\n${response}\n\n` block appended for one model's
response. -/
def modelSection (model response : List Nat) : List Nat :=
  jstr "### " ++ model ++ jstr ":\n" ++ response ++ jstr "\n\n"

/-- The string returned from the `catch` branch of `conductWallBounce`:
the error message followed by the discussion log accumulated so far. -/
def recoveredStr (errMsg log : List Nat) : List Nat :=
  jstr "壁打ちセッション中にエラーが発生しました: " ++ errMsg ++
    jstr "\n\n現在までの議論:\n" ++ log

/-- State of one run of the `for` loop of `conductWallBounce`: the error that
aborted it (if any), the discussion log, and the completion calls issued. -/
structure LoopRes where
  err : Option (List Nat)
  log : List Nat
  calls : List CallEvent
deriving DecidableEq

/-- The body of `for (let round = 1; round <= validatedRounds; round++)` in
`conductWallBounce` (lines 45-73), with the iteration count made explicit
(`remaining`; see `loopIterations`).  Each iteration appends the round header,
calls OpenAI with the full accumulated conversation, appends its section and
an `assistant` turn, calls Gemini with a fresh single prompt quoting OpenAI's
response, appends its section, and appends the synthetic `user` turn for the
next round.  A thrown error (an `Except.error` oracle answer) aborts the loop
with the log accumulated so far, exactly as the surrounding `try`/`catch`
sees it. -/
def roundLoop (P : Providers) (model1 model2 : List Nat) (temp : JsNum) :
    Nat → Nat → List ChatMsg → List Nat → List CallEvent → LoopRes
  | 0, _, _, log, calls => ⟨none, log, calls⟩
  | remaining + 1, round, conv, log, calls =>
    let log1 := log ++ roundHeaderStr round
    let calls1 := calls ++ [CallEvent.openaiCall conv temp (JsNum.num 1500)]
    match P.openaiResult round with
    | Except.error e => ⟨some e, log1, calls1⟩
    | Except.ok openaiResponse =>
      let log2 := log1 ++ modelSection model1 openaiResponse
      let conv2 := conv ++ [⟨jstr "assistant", openaiResponse⟩]
      let geminiPrompt := createGeminiPrompt openaiResponse
      let calls2 := calls1 ++ [CallEvent.geminiCall geminiPrompt temp (JsNum.num 1500)]
      match P.geminiResult round with
      | Except.error e => ⟨some e, log2, calls2⟩
      | Except.ok geminiResponse =>
        let log3 := log2 ++ modelSection model2 geminiResponse
        let conv3 := conv2 ++ [⟨jstr "user", nextPrompt geminiResponse⟩]
        roundLoop P model1 model2 temp remaining (round + 1) conv3 log3 calls2

/-- Number of iterations of `for (let round = 1; round <= bound; round++)`:
none when `bound` is `NaN` (every comparison with `NaN` is false) or below 1,
and `⌊bound⌋` otherwise (written `bound.num / bound.den`, which equals the
floor for a positive rational; see `loopIterations_correct`). -/
def loopIterations : JsNum → Nat
  | JsNum.nan => 0
  | JsNum.num q => if q < 1 then 0 else (q.num / (q.den : Int)).toNat

/-- `validateAndClampNumber(rounds, 1, 10, 3)` — the validated round count of
`conductWallBounce` (line 32). -/
def effectiveRounds (rounds : Option JsNum) : JsNum :=
  validateAndClampNumber rounds (JsNum.num 1) (JsNum.num 10) (JsNum.num 3)

/-- `validateAndClampNumber(temperature, 0, 2, 0.8)` — the validated
temperature of `conductWallBounce` (line 33). -/
def effectiveTemperature (temperature : Option JsNum) : JsNum :=
  validateAndClampNumber temperature (JsNum.num 0) (JsNum.num 2) (JsNum.num (8 / 10))

/-- `WallBounceService.conductWallBounce(params)` (`wall-bounce.js` lines
18-82).  Returns the outcome (raised error or returned transcript) together
with the list of completion calls the engine issued, in order. -/
def conductWallBounce (P : Providers) (topic : Option (List Nat))
    (model1 model2 : List Nat) (rounds temperature : Option JsNum) :
    WBOutcome × List CallEvent :=
  if !P.openaiAvailable then
    (WBOutcome.raised (jstr "OpenAI provider is not available. Please configure OPENAI_API_KEY."), [])
  else if !P.geminiAvailable then
    (WBOutcome.raised (jstr "Gemini provider is not available. Please configure GOOGLE_API_KEY."), [])
  else
    match validateAndSanitizeInput topic 1000 with
    | Except.error e => (WBOutcome.raised e, [])
    | Except.ok sanitizedTopic =>
      let validatedRounds := effectiveRounds rounds
      let validatedTemperature := effectiveTemperature temperature
      let conversation : List ChatMsg := [⟨jstr "user", createInitialPrompt sanitizedTopic⟩]
      let discussionLog := headerStr sanitizedTopic
      let res := roundLoop P model1 model2 validatedTemperature
        (loopIterations validatedRounds) 1 conversation discussionLog []
      match res.err with
      | some e => (WBOutcome.returned (recoveredStr e res.log), res.calls)
      | none =>
        (WBOutcome.returned (res.log ++ createSummary model1 model2 validatedRounds sanitizedTopic),
         res.calls)

/-- Which request field carries the token budget in
`OpenAIProvider.chatCompletion`. -/
inductive TokenField where
  | max_tokens : TokenField
  | max_completion_tokens : TokenField
deriving DecidableEq

/-- The request object `OpenAIProvider.chatCompletion` hands to
`client.chat.completions.create`. -/
structure OAIRequest where
  model : List Nat
  messages : List JMsg
  temperature : JsNum
  tokenField : TokenField
  tokenValue : JsNum
deriving DecidableEq

/-- The request construction of `OpenAIProvider.chatCompletion`
(`openai-provider.js` lines 20-50): validate the messages, clamp temperature
into `[0,2]` (default 1.0) and the token budget into `[1,4000]` (default
2500); then, for a model whose name includes `"gpt-5"`, force the temperature
to 1 when it differs from 1 and send the budget as `max_completion_tokens`;
otherwise send the clamped temperature and the budget as `max_tokens`.
A validation failure is the thrown error (nothing is dispatched). -/
def openaiBuildRequest (model : List Nat) (messages : List JMsg)
    (temperature maxTokens : Option JsNum) : Except (List Nat) OAIRequest :=
  match validateMessages messages with
  | Except.error e => Except.error e
  | Except.ok validatedMessages =>
    let validatedTemperature := validateAndClampNumber temperature (JsNum.num 0) (JsNum.num 2) (JsNum.num 1)
    let validatedMaxTokens := validateAndClampNumber maxTokens (JsNum.num 1) (JsNum.num 4000) (JsNum.num 2500)
    if containsSub (jstr "gpt-5") model then
      let finalTemperature := if validatedTemperature ≠ JsNum.num 1 then JsNum.num 1 else validatedTemperature
      Except.ok ⟨model, validatedMessages, finalTemperature, TokenField.max_completion_tokens, validatedMaxTokens⟩
    else
      Except.ok ⟨model, validatedMessages, validatedTemperature, TokenField.max_tokens, validatedMaxTokens⟩

/-- The `contents` array `GeminiProvider.generateContent` builds for a single
prompt (line 150 of the concatenated validation/provider source): exactly one
`user` entry wrapping the prompt. -/
def geminiContents (prompt : List Nat) : List ChatMsg :=
  [⟨jstr "user", prompt⟩]

deriving instance DecidableEq for Except

/-- The marker of a round-header line, `"## Round "`. -/
def roundMarker : List Nat :=
  jstr "## Round "

/-- The marker of the summary-section line, `"## Summary"`. -/
def summaryMarker : List Nat :=
  jstr "## Summary"

/-- The conversation array as it stands when round `r` calls OpenAI, for a run
whose providers answered `oR`/`gR` in the earlier rounds: the initial `user`
prompt followed, for each completed round, by the `assistant` response and the
synthetic `user` turn quoting Gemini's response. -/
def convAt (t0 : List Nat) (oR gR : Nat → List Nat) (r : Nat) : List ChatMsg :=
  ⟨jstr "user", createInitialPrompt t0⟩ ::
    (List.range (r - 1)).flatMap fun k =>
      [⟨jstr "assistant", oR (k + 1)⟩, ⟨jstr "user", nextPrompt (gR (k + 1))⟩]

/-- The transcript block one completed round contributes. -/
def fullSection (m1 m2 : List Nat) (oR gR : Nat → List Nat) (r : Nat) : List Nat :=
  roundHeaderStr r ++ modelSection m1 (oR r) ++ modelSection m2 (gR r)

/-- The discussion log after `r` completed rounds: the header plus the blocks
of rounds `1..r`. -/
def logUpTo (t0 m1 m2 : List Nat) (oR gR : Nat → List Nat) : Nat → List Nat
  | 0 => headerStr t0
  | r + 1 => logUpTo t0 m1 m2 oR gR r ++ fullSection m1 m2 oR gR (r + 1)

/-- The completion calls issued during `r` completed rounds, in order. -/
def callsUpTo (t0 : List Nat) (oR gR : Nat → List Nat) (temp : JsNum) : Nat → List CallEvent
  | 0 => []
  | r + 1 => callsUpTo t0 oR gR temp r ++
      [CallEvent.openaiCall (convAt t0 oR gR (r + 1)) temp (JsNum.num 1500),
       CallEvent.geminiCall (createGeminiPrompt (oR (r + 1))) temp (JsNum.num 1500)]

/-- Does a role list alternate `user, assistant, user, ...`?  The flag says
which of the two roles is expected next. -/
def rolePattern : Bool → List (List Nat) → Bool
  | _, [] => true
  | true, r :: rest => if r = jstr "user" then rolePattern false rest else false
  | false, r :: rest => if r = jstr "assistant" then rolePattern true rest else false

/-- Did a `conductWallBounce` outcome raise (rather than return a string)? -/
def isRaised : WBOutcome → Bool
  | WBOutcome.raised _ => true
  | WBOutcome.returned _ => false

/-! ## Sanitization: `dropWhile`/trim lemmas and idempotence -/

theorem dropWhile_dropWhile_self (p : Nat → Bool) (l : List Nat) :
    (l.dropWhile p).dropWhile p = l.dropWhile p := by
  induction l with
  | nil => rfl
  | cons a l ih =>
    by_cases h : p a
    · simp [List.dropWhile_cons, h, ih]
    · simp [List.dropWhile_cons, h]

theorem head?_dropWhile_false (p : Nat → Bool) (l : List Nat) (a : Nat)
    (h : (l.dropWhile p).head? = some a) : p a = false := by
  induction l with
  | nil => simp at h
  | cons b l ih =>
    by_cases hb : p b
    · simp [List.dropWhile_cons, hb] at h
      exact ih h
    · simp [List.dropWhile_cons, hb] at h
      rw [← h]
      simpa using hb

theorem dropWhile_eq_self_of_head (p : Nat → Bool) (l : List Nat)
    (h : ∀ a, l.head? = some a → p a = false) : l.dropWhile p = l := by
  cases l with
  | nil => rfl
  | cons a l => simp [List.dropWhile_cons, h a rfl]

theorem getLast?_dropWhile (p : Nat → Bool) (l : List Nat)
    (h : l.dropWhile p ≠ []) : (l.dropWhile p).getLast? = l.getLast? := by
  induction l with
  | nil => simp at h
  | cons a l ih =>
    by_cases ha : p a
    · rw [List.dropWhile_cons, if_pos ha] at h ⊢
      have hl : l ≠ [] := by
        intro hnil
        exact h (by simp [hnil])
      rw [ih h]
      cases l with
      | nil => exact absurd rfl hl
      | cons b l => simp
    · rw [List.dropWhile_cons, if_neg ha]

theorem mem_of_mem_dropWhile (p : Nat → Bool) (l : List Nat) (x : Nat)
    (h : x ∈ l.dropWhile p) : x ∈ l := by
  induction l with
  | nil => simp at h
  | cons a l ih =>
    by_cases ha : p a
    · rw [List.dropWhile_cons, if_pos ha] at h
      exact List.mem_cons_of_mem a (ih h)
    · rwa [List.dropWhile_cons, if_neg ha] at h

theorem mem_of_mem_jsTrim (s : List Nat) (x : Nat) (h : x ∈ jsTrim s) : x ∈ s := by
  unfold jsTrim trimRight trimLeft at h
  rw [List.mem_reverse] at h
  have h2 := mem_of_mem_dropWhile _ _ _ h
  rw [List.mem_reverse] at h2
  exact mem_of_mem_dropWhile _ _ _ h2

theorem stripControls_eq_self (s : List Nat)
    (h : ∀ x ∈ s, isStrippedControl x = false) : stripControls s = s := by
  unfold stripControls
  rw [List.filter_eq_self]
  intro a ha
  simp [h a ha]

theorem mem_stripControls_not_control (s : List Nat) (x : Nat)
    (h : x ∈ stripControls s) : isStrippedControl x = false := by
  unfold stripControls at h
  have := List.of_mem_filter h
  simpa using this

theorem jsTrim_idem (s : List Nat) : jsTrim (jsTrim s) = jsTrim s := by
  show trimRight (trimLeft (trimRight (trimLeft s))) = trimRight (trimLeft s)
  unfold trimRight trimLeft
  have hBB : ((s.dropWhile isJsWhitespace).reverse.dropWhile isJsWhitespace).dropWhile
      isJsWhitespace = (s.dropWhile isJsWhitespace).reverse.dropWhile isJsWhitespace :=
    dropWhile_dropWhile_self _ _
  have h1 : ((s.dropWhile isJsWhitespace).reverse.dropWhile isJsWhitespace).reverse.dropWhile
      isJsWhitespace =
      ((s.dropWhile isJsWhitespace).reverse.dropWhile isJsWhitespace).reverse := by
    apply dropWhile_eq_self_of_head
    intro a ha
    rw [List.head?_reverse] at ha
    have hBne : (s.dropWhile isJsWhitespace).reverse.dropWhile isJsWhitespace ≠ [] := by
      intro hnil
      rw [hnil] at ha
      simp at ha
    rw [getLast?_dropWhile _ _ hBne, List.getLast?_reverse] at ha
    exact head?_dropWhile_false isJsWhitespace s a ha
  rw [h1, List.reverse_reverse, hBB]

theorem sanitizeString_idem (s : List Nat) :
    sanitizeString (sanitizeString s) = sanitizeString s := by
  unfold sanitizeString
  have h1 : stripControls (jsTrim (stripControls s)) = jsTrim (stripControls s) := by
    apply stripControls_eq_self
    intro x hx
    exact mem_stripControls_not_control s x (mem_of_mem_jsTrim _ x hx)
  rw [h1, jsTrim_idem]

theorem validateAndSanitizeInput_some (s : List Nat) (L : Nat) :
    validateAndSanitizeInput (some s) L =
      if s.isEmpty then Except.error msgInvalidInput
      else if (sanitizeString s).length = 0 then Except.error msgEmptyAfterSanitization
      else if L < (sanitizeString s).length then Except.error (msgTooLong L)
      else Except.ok (sanitizeString s) := rfl

/-- C6: sanitization is idempotent — whenever `validateAndSanitizeInput`
succeeds on `x`, applying it to the result succeeds again and returns the same
string. -/
theorem claim_C6_sanitize_idempotent (x : List Nat) (L : Nat) (r : List Nat)
    (h : validateAndSanitizeInput (some x) L = Except.ok r) :
    validateAndSanitizeInput (some r) L = Except.ok r := by
  rw [validateAndSanitizeInput_some] at h
  rw [validateAndSanitizeInput_some]
  by_cases hx : x.isEmpty
  · simp [hx] at h
  · rw [if_neg hx] at h
    by_cases h0 : (sanitizeString x).length = 0
    · simp [h0] at h
    · rw [if_neg h0] at h
      by_cases hL : L < (sanitizeString x).length
      · simp [hL] at h
      · rw [if_neg hL] at h
        have hr : r = sanitizeString x := by
          cases h
          rfl
        subst hr
        have hne : (sanitizeString x).isEmpty = false := by
          cases hsx : sanitizeString x with
          | nil => rw [hsx] at h0; simp at h0
          | cons a l => rfl
        rw [if_neg (by simp [hne]), sanitizeString_idem]
        rw [if_neg h0, if_neg hL]

/-- Witness for C6 at a concrete input: `" a "` sanitizes to `"a"`, and
sanitizing again returns `"a"` unchanged. -/
theorem claim_C6_sanitize_idempotent_witness :
    validateAndSanitizeInput (some (jstr " a ")) 1000 = Except.ok (jstr "a") ∧
    validateAndSanitizeInput (some (jstr "a")) 1000 = Except.ok (jstr "a") := by
  refine ⟨by decide, ?_⟩
  exact claim_C6_sanitize_idempotent (jstr " a ") 1000 (jstr "a") (by decide)

/-! ## Numeric clamping -/

theorem validateAndClampNumber_num (q lo hi d : ℚ) :
    validateAndClampNumber (some (JsNum.num q)) (JsNum.num lo) (JsNum.num hi) (JsNum.num d) =
      JsNum.num (min (max q lo) hi) := rfl

theorem validateAndClampNumber_nan (lo hi d : ℚ) :
    validateAndClampNumber (some JsNum.nan) (JsNum.num lo) (JsNum.num hi) (JsNum.num d) =
      JsNum.nan := rfl

/-- The iteration count of the embedded `for` loop agrees with the loop
condition `round <= bound` of the source: for positive `r`, round `r` runs
exactly when `r ≤ loopIterations bound`. -/
theorem loopIterations_correct (q : ℚ) (r : Nat) (hr : 1 ≤ r) :
    ((r : ℚ) ≤ q ↔ r ≤ loopIterations (JsNum.num q)) := by
  rw [show loopIterations (JsNum.num q) =
    (if q < 1 then 0 else (q.num / (q.den : Int)).toNat) from rfl]
  by_cases hq : q < 1
  · rw [if_pos hq]
    constructor
    · intro h
      exfalso
      have h1 : (1 : ℚ) ≤ (r : ℚ) := by exact_mod_cast hr
      linarith
    · intro h
      omega
  · rw [if_neg hq]
    have hfloor : q.num / (q.den : Int) = ⌊q⌋ := Rat.floor_def.symm
    rw [hfloor]
    have h0 : (0 : Int) ≤ ⌊q⌋ := by
      rw [Int.le_floor]
      push_cast
      linarith
    rw [Int.le_toNat h0, Int.le_floor]
    push_cast
    rfl

/-- Every completion call recorded by the round loop carries the loop's
temperature argument. -/
theorem roundLoop_calls_temp (P : Providers) (m1 m2 : List Nat) (temp : JsNum) :
    ∀ (n round : Nat) (conv : List ChatMsg) (log : List Nat) (calls : List CallEvent),
      (∀ e ∈ calls, eventTemp e = temp) →
      ∀ e ∈ (roundLoop P m1 m2 temp n round conv log calls).calls, eventTemp e = temp := by
  intro n
  induction n with
  | zero =>
    intro round conv log calls hc e he
    exact hc e he
  | succ n ih =>
    intro round conv log calls hc e he
    rw [roundLoop] at he
    cases hoa : P.openaiResult round with
    | error msg =>
      rw [hoa] at he
      simp only [List.mem_append, List.mem_singleton] at he
      rcases he with he | he
      · exact hc e he
      · rw [he]; rfl
    | ok oResp =>
      rw [hoa] at he
      cases hg : P.geminiResult round with
      | error msg =>
        rw [hg] at he
        simp only [List.mem_append, List.mem_singleton] at he
        rcases he with (he | he) | he
        · exact hc e he
        · rw [he]; rfl
        · rw [he]; rfl
      | ok gResp =>
        rw [hg] at he
        refine ih (round + 1) _ _ _ ?_ e he
        intro f hf
        simp only [List.mem_append, List.mem_singleton] at hf
        rcases hf with (hf | hf) | hf
        · exact hc f hf
        · rw [hf]; rfl
        · rw [hf]; rfl

/-- Every completion call recorded by `conductWallBounce` carries the clamped
temperature. -/
theorem conductWallBounce_calls_temp (P : Providers) (topic : Option (List Nat))
    (m1 m2 : List Nat) (rounds temperature : Option JsNum) :
    ∀ e ∈ (conductWallBounce P topic m1 m2 rounds temperature).2,
      eventTemp e = effectiveTemperature temperature := by
  intro e he
  unfold conductWallBounce at he
  cases hA : P.openaiAvailable with
  | false => rw [hA] at he; simp at he
  | true =>
    rw [hA] at he
    cases hB : P.geminiAvailable with
    | false => rw [hB] at he; simp at he
    | true =>
      rw [hB] at he
      simp only [Bool.not_true, Bool.false_eq_true, if_false] at he
      cases hs : validateAndSanitizeInput topic 1000 with
      | error msg => rw [hs] at he; simp at he
      | ok t0 =>
        rw [hs] at he
        simp only at he
        cases hres : (roundLoop P m1 m2 (effectiveTemperature temperature)
            (loopIterations (effectiveRounds rounds)) 1
            [⟨jstr "user", createInitialPrompt t0⟩] (headerStr t0) []).err with
        | some msg =>
          rw [hres] at he
          exact roundLoop_calls_temp P m1 m2 _ _ _ _ _ [] (by simp) e he
        | none =>
          rw [hres] at he
          exact roundLoop_calls_temp P m1 m2 _ _ _ _ _ [] (by simp) e he

/-- C4: a numeric `rounds` outside `[1,10]` is clamped — the effective round
count equals `clamp(input, 1, 10)` (10 above, 1 below); a numeric
`temperature` outside `[0,2]` is clamped into `[0,2]`, and the clamped value
is the temperature attached to every completion call the engine passes to
either provider. -/
theorem claim_C4_clamping :
    (∀ q : ℚ, (10 < q ∨ q < 1) →
      effectiveRounds (some (JsNum.num q)) = JsNum.num (min (max q 1) 10) ∧
      (10 < q → effectiveRounds (some (JsNum.num q)) = JsNum.num 10) ∧
      (q < 1 → effectiveRounds (some (JsNum.num q)) = JsNum.num 1)) ∧
    (∀ t : ℚ, (t < 0 ∨ 2 < t) →
      effectiveTemperature (some (JsNum.num t)) = JsNum.num (min (max t 0) 2) ∧
      0 ≤ min (max t 0) 2 ∧ min (max t 0) 2 ≤ 2) ∧
    (∀ (P : Providers) (topic : Option (List Nat)) (m1 m2 : List Nat)
      (rounds temperature : Option JsNum),
      ∀ e ∈ (conductWallBounce P topic m1 m2 rounds temperature).2,
        eventTemp e = effectiveTemperature temperature) := by
  refine ⟨?_, ?_, ?_⟩
  · intro q _
    have hq : effectiveRounds (some (JsNum.num q)) = JsNum.num (min (max q 1) 10) := rfl
    refine ⟨hq, ?_, ?_⟩
    · intro h10
      rw [hq]
      have h1 : max q 1 = q := max_eq_left (by linarith)
      rw [h1, min_eq_right (by linarith)]
    · intro h1
      rw [hq]
      have h2 : max q 1 = 1 := max_eq_right (by linarith)
      rw [h2, min_eq_left (by norm_num)]
  · intro t _
    have ht : effectiveTemperature (some (JsNum.num t)) = JsNum.num (min (max t 0) 2) := rfl
    exact ⟨ht, le_min (le_max_right t 0) (by norm_num), min_le_right _ _⟩
  · exact fun P topic m1 m2 rounds temperature =>
      conductWallBounce_calls_temp P topic m1 m2 rounds temperature

set_option maxRecDepth 100000 in
/-- Witness for C4: rounds 11 clamps to 10, temperature 3 clamps to 2, and a
concrete one-round run passes the clamped temperature to the first recorded
provider call. -/
theorem claim_C4_clamping_witness :
    effectiveRounds (some (JsNum.num 11)) = JsNum.num 10 ∧
    effectiveTemperature (some (JsNum.num 3)) = JsNum.num (min (max 3 0) 2) ∧
    eventTemp (CallEvent.openaiCall [⟨jstr "user", createInitialPrompt [97]⟩]
        (JsNum.num 2) (JsNum.num 1500)) =
      effectiveTemperature (some (JsNum.num 3)) := by
  refine ⟨(claim_C4_clamping.1 11 (Or.inl (by norm_num))).2.1 (by norm_num),
    (claim_C4_clamping.2.1 3 (Or.inr (by norm_num))).1, ?_⟩
  exact claim_C4_clamping.2.2 ⟨true, true, fun _ => Except.ok [], fun _ => Except.ok []⟩
    (some [97]) [] [] (some (JsNum.num 1)) (some (JsNum.num 3)) _ (by decide)

/-! ## Fail-fast paths of `conductWallBounce` -/

theorem conductWallBounce_openai_unavailable (P : Providers) (topic : Option (List Nat))
    (m1 m2 : List Nat) (rounds temperature : Option JsNum)
    (h : P.openaiAvailable = false) :
    conductWallBounce P topic m1 m2 rounds temperature =
      (WBOutcome.raised (jstr "OpenAI provider is not available. Please configure OPENAI_API_KEY."), []) := by
  unfold conductWallBounce
  rw [h]
  rfl

theorem conductWallBounce_gemini_unavailable (P : Providers) (topic : Option (List Nat))
    (m1 m2 : List Nat) (rounds temperature : Option JsNum)
    (h1 : P.openaiAvailable = true) (h2 : P.geminiAvailable = false) :
    conductWallBounce P topic m1 m2 rounds temperature =
      (WBOutcome.raised (jstr "Gemini provider is not available. Please configure GOOGLE_API_KEY."), []) := by
  unfold conductWallBounce
  rw [h1, h2]
  rfl

theorem conductWallBounce_validation_error (P : Providers) (topic : Option (List Nat))
    (m1 m2 : List Nat) (rounds temperature : Option JsNum) (e : List Nat)
    (h1 : P.openaiAvailable = true) (h2 : P.geminiAvailable = true)
    (hs : validateAndSanitizeInput topic 1000 = Except.error e) :
    conductWallBounce P topic m1 m2 rounds temperature = (WBOutcome.raised e, []) := by
  unfold conductWallBounce
  rw [h1, h2]
  simp only [Bool.not_true, Bool.false_eq_true, if_false]
  rw [hs]

/-- C2: if either provider reports unavailable, `conductWallBounce` raises an
error, no completion call is made on either provider (the recorded call list
is empty), and no transcript — partial or otherwise — is produced. -/
theorem claim_C2_unavailable_fail_fast (P : Providers) (topic : Option (List Nat))
    (m1 m2 : List Nat) (rounds temperature : Option JsNum)
    (h : P.openaiAvailable = false ∨ P.geminiAvailable = false) :
    isRaised (conductWallBounce P topic m1 m2 rounds temperature).1 = true ∧
    (conductWallBounce P topic m1 m2 rounds temperature).2 = [] := by
  rcases h with h | h
  · rw [conductWallBounce_openai_unavailable P topic m1 m2 rounds temperature h]
    exact ⟨rfl, rfl⟩
  · cases hA : P.openaiAvailable with
    | false =>
      rw [conductWallBounce_openai_unavailable P topic m1 m2 rounds temperature hA]
      exact ⟨rfl, rfl⟩
    | true =>
      rw [conductWallBounce_gemini_unavailable P topic m1 m2 rounds temperature hA h]
      exact ⟨rfl, rfl⟩

/-- Witness for C2: with the Gemini key missing, a concrete call raises and
records zero completion calls. -/
theorem claim_C2_unavailable_fail_fast_witness :
    isRaised (conductWallBounce
        ⟨true, false, fun _ => Except.ok [], fun _ => Except.ok []⟩
        (some [97]) [] [] (some (JsNum.num 2)) (some (JsNum.num 1))).1 = true ∧
    (conductWallBounce ⟨true, false, fun _ => Except.ok [], fun _ => Except.ok []⟩
        (some [97]) [] [] (some (JsNum.num 2)) (some (JsNum.num 1))).2 = [] :=
  claim_C2_unavailable_fail_fast _ _ _ _ _ _ (Or.inr rfl)

/-- C7 fails as stated on the empty topic: `""` sanitizes to the empty string,
but `conductWallBounce` raises `Input must be a non-empty string` (the
`!input` check fires first), not `Input cannot be empty after sanitization`. -/
theorem claim_C7_counterexample :
    conductWallBounce ⟨true, true, fun _ => Except.ok [], fun _ => Except.ok []⟩
        (some []) [] [] (some (JsNum.num 2)) (some (JsNum.num 1)) =
      (WBOutcome.raised msgInvalidInput, []) ∧
    sanitizeString [] = [] ∧
    msgInvalidInput ≠ msgEmptyAfterSanitization :=
  ⟨by decide, rfl, by decide⟩

/-- C7 (amended): for a NON-empty topic whose sanitized form is empty,
`conductWallBounce` raises `EmptyAfterSanitization`, and for a topic whose
sanitized form exceeds 1000 characters it raises `TooLong`; in both cases no
completion call is made on either provider.  (An empty topic instead raises
`InvalidInput`, see the counterexample.) -/
theorem claim_C7_validation_errors_amended (P : Providers) (topic : List Nat)
    (m1 m2 : List Nat) (rounds temperature : Option JsNum)
    (h1 : P.openaiAvailable = true) (h2 : P.geminiAvailable = true) :
    (topic ≠ [] → (sanitizeString topic).length = 0 →
      conductWallBounce P (some topic) m1 m2 rounds temperature =
        (WBOutcome.raised msgEmptyAfterSanitization, [])) ∧
    (1000 < (sanitizeString topic).length →
      conductWallBounce P (some topic) m1 m2 rounds temperature =
        (WBOutcome.raised (msgTooLong 1000), [])) := by
  constructor
  · intro hne h0
    apply conductWallBounce_validation_error P _ m1 m2 rounds temperature _ h1 h2
    rw [validateAndSanitizeInput_some]
    have hne' : ¬(topic.isEmpty = true) := by
      cases topic with
      | nil => exact absurd rfl hne
      | cons a l => simp
    rw [if_neg hne', if_pos h0]
  · intro hlen
    have hne : topic ≠ [] := by
      intro h
      rw [h] at hlen
      exact absurd hlen (by decide)
    apply conductWallBounce_validation_error P _ m1 m2 rounds temperature _ h1 h2
    rw [validateAndSanitizeInput_some]
    have hne' : ¬(topic.isEmpty = true) := by
      cases topic with
      | nil => exact absurd rfl hne
      | cons a l => simp
    rw [if_neg hne', if_neg (by omega), if_pos hlen]

set_option maxRecDepth 100000 in
/-- Witness for the amended C7: a topic of two control bytes raises
`EmptyAfterSanitization`; a 1001-character topic raises `TooLong`; both with
an empty call list. -/
theorem claim_C7_validation_errors_amended_witness :
    conductWallBounce ⟨true, true, fun _ => Except.ok [], fun _ => Except.ok []⟩
        (some [0, 1]) [] [] (some (JsNum.num 2)) (some (JsNum.num 1)) =
      (WBOutcome.raised msgEmptyAfterSanitization, []) ∧
    conductWallBounce ⟨true, true, fun _ => Except.ok [], fun _ => Except.ok []⟩
        (some (List.replicate 1001 97)) [] [] (some (JsNum.num 2)) (some (JsNum.num 1)) =
      (WBOutcome.raised (msgTooLong 1000), []) :=
  ⟨(claim_C7_validation_errors_amended _ [0, 1] [] [] _ _ rfl rfl).1 (by decide) (by decide),
   (claim_C7_validation_errors_amended _ (List.replicate 1001 97) [] [] _ _ rfl rfl).2 (by decide)⟩

/-! ## OpenAI request construction (C5) and Gemini role conversion (C8) -/

theorem openaiBuildRequest_ok (model : List Nat) (messages : List JMsg)
    (temperature maxTokens : Option JsNum) (vmsgs : List JMsg)
    (hv : validateMessages messages = Except.ok vmsgs) :
    openaiBuildRequest model messages temperature maxTokens =
      (if containsSub (jstr "gpt-5") model then
        Except.ok ⟨model, vmsgs,
          (if validateAndClampNumber temperature (JsNum.num 0) (JsNum.num 2) (JsNum.num 1) ≠ JsNum.num 1
            then JsNum.num 1
            else validateAndClampNumber temperature (JsNum.num 0) (JsNum.num 2) (JsNum.num 1)),
          TokenField.max_completion_tokens,
          validateAndClampNumber maxTokens (JsNum.num 1) (JsNum.num 4000) (JsNum.num 2500)⟩
      else
        Except.ok ⟨model, vmsgs,
          validateAndClampNumber temperature (JsNum.num 0) (JsNum.num 2) (JsNum.num 1),
          TokenField.max_tokens,
          validateAndClampNumber maxTokens (JsNum.num 1) (JsNum.num 4000) (JsNum.num 2500)⟩) := by
  unfold openaiBuildRequest
  rw [hv]

/-- C5: when the model name contains `"gpt-5"`, the request
`OpenAIProvider.chatCompletion` dispatches carries temperature exactly 1
(whatever the caller asked for) and the token budget under
`max_completion_tokens`; for any other model name the clamped caller
temperature is passed through and the budget is sent as `max_tokens`. -/
theorem claim_C5_gpt5_override (model : List Nat) (messages : List JMsg)
    (temperature maxTokens : Option JsNum) (req : OAIRequest)
    (h : openaiBuildRequest model messages temperature maxTokens = Except.ok req) :
    (containsSub (jstr "gpt-5") model = true →
      req.temperature = JsNum.num 1 ∧
      req.tokenField = TokenField.max_completion_tokens ∧
      req.tokenValue = validateAndClampNumber maxTokens (JsNum.num 1) (JsNum.num 4000) (JsNum.num 2500)) ∧
    (containsSub (jstr "gpt-5") model = false →
      req.temperature = validateAndClampNumber temperature (JsNum.num 0) (JsNum.num 2) (JsNum.num 1) ∧
      req.tokenField = TokenField.max_tokens ∧
      req.tokenValue = validateAndClampNumber maxTokens (JsNum.num 1) (JsNum.num 4000) (JsNum.num 2500)) := by
  cases hv : validateMessages messages with
  | error e =>
    unfold openaiBuildRequest at h
    rw [hv] at h
    exact absurd h (by simp)
  | ok vmsgs =>
    rw [openaiBuildRequest_ok model messages temperature maxTokens vmsgs hv] at h
    constructor
    · intro hm
      rw [if_pos hm] at h
      cases h
      refine ⟨?_, rfl, rfl⟩
      by_cases ht : validateAndClampNumber temperature (JsNum.num 0) (JsNum.num 2) (JsNum.num 1) = JsNum.num 1
      · simp only [ne_eq, ht, not_true_eq_false, if_false]
      · simp only [ne_eq, ht, not_false_eq_true, if_true]
    · intro hm
      rw [if_neg (by simp [hm])] at h
      cases h
      exact ⟨rfl, rfl, rfl⟩

/-- Witness for C5: `gpt-5-mini` gets temperature 1 and
`max_completion_tokens` although the caller asked for temperature 0; `gpt-4`
keeps the caller's (clamped) temperature and `max_tokens`. -/
theorem claim_C5_gpt5_override_witness :
    OAIRequest.temperature ⟨jstr "gpt-5-mini", [⟨jstr "user", jstr "hi", []⟩],
        JsNum.num 1, TokenField.max_completion_tokens, JsNum.num 100⟩ = JsNum.num 1 ∧
    OAIRequest.temperature ⟨jstr "gpt-4", [⟨jstr "user", jstr "hi", []⟩],
        JsNum.num 0, TokenField.max_tokens, JsNum.num 100⟩ =
      validateAndClampNumber (some (JsNum.num 0)) (JsNum.num 0) (JsNum.num 2) (JsNum.num 1) :=
  ⟨((claim_C5_gpt5_override (jstr "gpt-5-mini") [⟨jstr "user", jstr "hi", []⟩]
      (some (JsNum.num 0)) (some (JsNum.num 100)) _ (by decide)).1 (by decide)).1,
   ((claim_C5_gpt5_override (jstr "gpt-4") [⟨jstr "user", jstr "hi", []⟩]
      (some (JsNum.num 0)) (some (JsNum.num 100)) _ (by decide)).2 (by decide)).1⟩

/-- C8 fails as stated: a `user` entry carrying an extra field is NOT returned
unchanged — `convertMessages` rebuilds it as a bare `{role, content}` object
and the extra field is dropped. -/
theorem claim_C8_counterexample :
    convertMessages [⟨jstr "user", jstr "hi", [(jstr "k", jstr "v")]⟩] =
      [⟨jstr "user", jstr "hi", []⟩] ∧
    convertMessages [⟨jstr "user", jstr "hi", [(jstr "k", jstr "v")]⟩] ≠
      [⟨jstr "user", jstr "hi", [(jstr "k", jstr "v")]⟩] :=
  ⟨by decide, by decide⟩

/-- C8 (amended): `convertMessages` maps `assistant` entries to role `model`,
returns entries with unrecognized roles completely unchanged (extra fields
included), and rebuilds `system` and `user` entries as bare `{role, content}`
objects, dropping any extra fields. -/
theorem claim_C8_convert_roles_amended (messages : List JMsg) (i : Nat) (m : JMsg)
    (h : messages[i]? = some m) :
    (m.role = jstr "assistant" →
      (convertMessages messages)[i]? = some ⟨jstr "model", m.content, []⟩) ∧
    (m.role = jstr "system" →
      (convertMessages messages)[i]? = some ⟨jstr "system", m.content, []⟩) ∧
    (m.role = jstr "user" →
      (convertMessages messages)[i]? = some ⟨jstr "user", m.content, []⟩) ∧
    (m.role ≠ jstr "system" → m.role ≠ jstr "user" → m.role ≠ jstr "assistant" →
      (convertMessages messages)[i]? = some m) := by
  unfold convertMessages
  rw [List.getElem?_map, h, Option.map_some']
  refine ⟨?_, ?_, ?_, ?_⟩
  · intro hr
    rw [hr, if_neg (by decide), if_neg (by decide), if_pos rfl]
  · intro hr
    rw [hr, if_pos rfl]
  · intro hr
    rw [hr, if_neg (by decide), if_pos rfl]
  · intro hs hu ha
    rw [if_neg hs, if_neg hu, if_neg ha]

/-- Witness for the amended C8: an `assistant` entry becomes a bare `model`
entry, and an entry with the unrecognized role `tool` passes through with its
extra field intact. -/
theorem claim_C8_convert_roles_amended_witness :
    (convertMessages [⟨jstr "assistant", jstr "x", [(jstr "k", jstr "v")]⟩])[0]? =
      some ⟨jstr "model", jstr "x", []⟩ ∧
    (convertMessages [⟨jstr "tool", jstr "y", [(jstr "k", jstr "v")]⟩])[0]? =
      some ⟨jstr "tool", jstr "y", [(jstr "k", jstr "v")]⟩ :=
  ⟨(claim_C8_convert_roles_amended [⟨jstr "assistant", jstr "x", [(jstr "k", jstr "v")]⟩] 0
      ⟨jstr "assistant", jstr "x", [(jstr "k", jstr "v")]⟩ rfl).1 rfl,
   (claim_C8_convert_roles_amended [⟨jstr "tool", jstr "y", [(jstr "k", jstr "v")]⟩] 0
      ⟨jstr "tool", jstr "y", [(jstr "k", jstr "v")]⟩ rfl).2.2.2
      (by decide) (by decide) (by decide)⟩

/-! ## The round loop: explicit shapes of successful and failing runs -/

theorem convAt_one (t0 : List Nat) (oR gR : Nat → List Nat) :
    convAt t0 oR gR 1 = [⟨jstr "user", createInitialPrompt t0⟩] := rfl

theorem convAt_succ_succ (t0 : List Nat) (oR gR : Nat → List Nat) (s : Nat) :
    convAt t0 oR gR (s + 2) =
      convAt t0 oR gR (s + 1) ++
        [⟨jstr "assistant", oR (s + 1)⟩, ⟨jstr "user", nextPrompt (gR (s + 1))⟩] := by
  unfold convAt
  rw [show s + 2 - 1 = s + 1 from rfl, show s + 1 - 1 = s from rfl, List.range_succ]
  simp

theorem roundLoop_advance (P : Providers) (m1 m2 t0 : List Nat) (temp : JsNum)
    (oR gR : Nat → List Nat) :
    ∀ (j n s : Nat),
      (∀ k, s + 1 ≤ k → k < s + 1 + j →
        P.openaiResult k = Except.ok (oR k) ∧ P.geminiResult k = Except.ok (gR k)) →
      roundLoop P m1 m2 temp (j + n) (s + 1) (convAt t0 oR gR (s + 1))
          (logUpTo t0 m1 m2 oR gR s) (callsUpTo t0 oR gR temp s) =
        roundLoop P m1 m2 temp n (s + 1 + j) (convAt t0 oR gR (s + 1 + j))
          (logUpTo t0 m1 m2 oR gR (s + j)) (callsUpTo t0 oR gR temp (s + j)) := by
  intro j
  induction j with
  | zero =>
    intro n s _
    simp
  | succ j ih =>
    intro n s h
    have hok := h (s + 1) (le_refl _) (by omega)
    have adv := ih n (s + 1) (fun k hk1 hk2 => h k (by omega) (by omega))
    rw [show j + 1 + n = (j + n) + 1 from by omega]
    rw [roundLoop, hok.1, hok.2]
    simp only []
    rw [show s + 1 + (j + 1) = (s + 1) + 1 + j from by omega,
      show s + (j + 1) = (s + 1) + j from by omega]
    rw [List.append_assoc (convAt t0 oR gR (s + 1)), List.singleton_append]
    refine Eq.trans ?_ adv
    rw [show logUpTo t0 m1 m2 oR gR (s + 1) =
          logUpTo t0 m1 m2 oR gR s ++ fullSection m1 m2 oR gR (s + 1) from rfl]
    rw [show callsUpTo t0 oR gR temp (s + 1) = callsUpTo t0 oR gR temp s ++
          [CallEvent.openaiCall (convAt t0 oR gR (s + 1)) temp (JsNum.num 1500),
           CallEvent.geminiCall (createGeminiPrompt (oR (s + 1))) temp (JsNum.num 1500)] from rfl]
    rw [convAt_succ_succ]
    unfold fullSection
    simp [List.append_assoc]

theorem roundLoop_full_success (P : Providers) (m1 m2 t0 : List Nat) (temp : JsNum)
    (oR gR : Nat → List Nat) (N : Nat)
    (hok : ∀ k, 1 ≤ k → k ≤ N →
      P.openaiResult k = Except.ok (oR k) ∧ P.geminiResult k = Except.ok (gR k)) :
    roundLoop P m1 m2 temp N 1 [⟨jstr "user", createInitialPrompt t0⟩] (headerStr t0) [] =
      ⟨none, logUpTo t0 m1 m2 oR gR N, callsUpTo t0 oR gR temp N⟩ := by
  have adv := roundLoop_advance P m1 m2 t0 temp oR gR N 0 0
    (fun k hk1 hk2 => hok k (by omega) (by omega))
  simp only [Nat.add_zero, Nat.zero_add] at adv
  rw [show ([⟨jstr "user", createInitialPrompt t0⟩] : List ChatMsg) = convAt t0 oR gR 1 from rfl,
    show headerStr t0 = logUpTo t0 m1 m2 oR gR 0 from rfl,
    show ([] : List CallEvent) = callsUpTo t0 oR gR temp 0 from rfl]
  rw [adv]
  rfl

theorem roundLoop_fail_openai (P : Providers) (m1 m2 t0 : List Nat) (temp : JsNum)
    (oR gR : Nat → List Nat) (N r : Nat) (e : List Nat)
    (hr1 : 1 ≤ r) (hrN : r ≤ N)
    (hok : ∀ k, 1 ≤ k → k < r →
      P.openaiResult k = Except.ok (oR k) ∧ P.geminiResult k = Except.ok (gR k))
    (hfail : P.openaiResult r = Except.error e) :
    roundLoop P m1 m2 temp N 1 [⟨jstr "user", createInitialPrompt t0⟩] (headerStr t0) [] =
      ⟨some e, logUpTo t0 m1 m2 oR gR (r - 1) ++ roundHeaderStr r,
        callsUpTo t0 oR gR temp (r - 1) ++
          [CallEvent.openaiCall (convAt t0 oR gR r) temp (JsNum.num 1500)]⟩ := by
  obtain ⟨s, rfl⟩ : ∃ s, r = s + 1 := ⟨r - 1, by omega⟩
  obtain ⟨n, rfl⟩ : ∃ n, N = s + (n + 1) := ⟨N - s - 1, by omega⟩
  have adv := roundLoop_advance P m1 m2 t0 temp oR gR s (n + 1) 0
    (fun k hk1 hk2 => hok k (by omega) (by omega))
  simp only [Nat.add_zero, Nat.zero_add] at adv
  rw [show ([⟨jstr "user", createInitialPrompt t0⟩] : List ChatMsg) = convAt t0 oR gR 1 from rfl,
    show headerStr t0 = logUpTo t0 m1 m2 oR gR 0 from rfl,
    show ([] : List CallEvent) = callsUpTo t0 oR gR temp 0 from rfl]
  rw [Nat.add_comm 1 s] at adv
  rw [adv, roundLoop, hfail]
  rfl

theorem roundLoop_fail_gemini (P : Providers) (m1 m2 t0 : List Nat) (temp : JsNum)
    (oR gR : Nat → List Nat) (N r : Nat) (e : List Nat)
    (hr1 : 1 ≤ r) (hrN : r ≤ N)
    (hok : ∀ k, 1 ≤ k → k < r →
      P.openaiResult k = Except.ok (oR k) ∧ P.geminiResult k = Except.ok (gR k))
    (hoa : P.openaiResult r = Except.ok (oR r))
    (hfail : P.geminiResult r = Except.error e) :
    roundLoop P m1 m2 temp N 1 [⟨jstr "user", createInitialPrompt t0⟩] (headerStr t0) [] =
      ⟨some e,
        logUpTo t0 m1 m2 oR gR (r - 1) ++ roundHeaderStr r ++ modelSection m1 (oR r),
        callsUpTo t0 oR gR temp (r - 1) ++
          [CallEvent.openaiCall (convAt t0 oR gR r) temp (JsNum.num 1500),
           CallEvent.geminiCall (createGeminiPrompt (oR r)) temp (JsNum.num 1500)]⟩ := by
  obtain ⟨s, rfl⟩ : ∃ s, r = s + 1 := ⟨r - 1, by omega⟩
  obtain ⟨n, rfl⟩ : ∃ n, N = s + (n + 1) := ⟨N - s - 1, by omega⟩
  have adv := roundLoop_advance P m1 m2 t0 temp oR gR s (n + 1) 0
    (fun k hk1 hk2 => hok k (by omega) (by omega))
  simp only [Nat.add_zero, Nat.zero_add] at adv
  rw [show ([⟨jstr "user", createInitialPrompt t0⟩] : List ChatMsg) = convAt t0 oR gR 1 from rfl,
    show headerStr t0 = logUpTo t0 m1 m2 oR gR 0 from rfl,
    show ([] : List CallEvent) = callsUpTo t0 oR gR temp 0 from rfl]
  rw [Nat.add_comm 1 s] at adv
  rw [adv, roundLoop, hoa, hfail]
  simp [List.append_assoc, callsUpTo]

theorem conductWallBounce_loopRes (P : Providers) (topic : Option (List Nat))
    (m1 m2 t0 : List Nat) (rounds temperature : Option JsNum)
    (E : Option (List Nat)) (L : List Nat) (C : List CallEvent)
    (h1 : P.openaiAvailable = true) (h2 : P.geminiAvailable = true)
    (hs : validateAndSanitizeInput topic 1000 = Except.ok t0)
    (hrun : roundLoop P m1 m2 (effectiveTemperature temperature)
        (loopIterations (effectiveRounds rounds)) 1
        [⟨jstr "user", createInitialPrompt t0⟩] (headerStr t0) [] = ⟨E, L, C⟩) :
    conductWallBounce P topic m1 m2 rounds temperature =
      ((match E with
        | some e => WBOutcome.returned (recoveredStr e L)
        | none => WBOutcome.returned
            (L ++ createSummary m1 m2 (effectiveRounds rounds) t0)), C) := by
  unfold conductWallBounce
  rw [h1, h2]
  simp only [Bool.not_true, Bool.false_eq_true, if_false]
  rw [hs]
  simp only [hrun]
  cases E with
  | none => rfl
  | some e => rfl

/-- C10: `NaN` rounds — `validateAndClampNumber` returns `NaN` rather than
the default 3, the round loop runs zero iterations, neither provider's
completion is ever called (the call list is empty), and the returned
transcript is exactly the header followed by the summary section, with no
round sections. -/
theorem claim_C10_nan_rounds (P : Providers) (topic : Option (List Nat))
    (m1 m2 t0 : List Nat) (temperature : Option JsNum)
    (h1 : P.openaiAvailable = true) (h2 : P.geminiAvailable = true)
    (hs : validateAndSanitizeInput topic 1000 = Except.ok t0) :
    validateAndClampNumber (some JsNum.nan) (JsNum.num 1) (JsNum.num 10) (JsNum.num 3) =
      JsNum.nan ∧
    JsNum.nan ≠ JsNum.num 3 ∧
    loopIterations (effectiveRounds (some JsNum.nan)) = 0 ∧
    conductWallBounce P topic m1 m2 (some JsNum.nan) temperature =
      (WBOutcome.returned (headerStr t0 ++ createSummary m1 m2 JsNum.nan t0), []) := by
  refine ⟨rfl, by intro h; exact JsNum.noConfusion h, rfl, ?_⟩
  have hrun : roundLoop P m1 m2 (effectiveTemperature temperature)
      (loopIterations (effectiveRounds (some JsNum.nan))) 1
      [⟨jstr "user", createInitialPrompt t0⟩] (headerStr t0) [] =
      ⟨none, headerStr t0, []⟩ := rfl
  rw [conductWallBounce_loopRes P topic m1 m2 t0 (some JsNum.nan) temperature
    none (headerStr t0) [] h1 h2 hs hrun]
  rfl

/-- Witness for C10: a concrete call with `rounds = NaN` returns just the
header plus the summary and records no completion calls. -/
theorem claim_C10_nan_rounds_witness :
    conductWallBounce ⟨true, true, fun _ => Except.ok [], fun _ => Except.ok []⟩
        (some [97]) [109] [110] (some JsNum.nan) (some (JsNum.num 1)) =
      (WBOutcome.returned (headerStr [97] ++ createSummary [109] [110] JsNum.nan [97]), []) :=
  (claim_C10_nan_rounds ⟨true, true, fun _ => Except.ok [], fun _ => Except.ok []⟩
    (some [97]) [109] [110] [97] (some (JsNum.num 1)) rfl rfl (by decide)).2.2.2

/-! ## Conversation shape (C9) -/

theorem flatMap_const_range {α : Type} (L : List α) :
    ∀ n, (List.range n).flatMap (fun _ => L) = List.flatten (List.replicate n L) := by
  have comm : ∀ m, List.flatten (List.replicate m L) ++ L =
      L ++ List.flatten (List.replicate m L) := by
    intro m
    induction m with
    | zero => simp
    | succ m ihm =>
      rw [List.replicate_succ, List.flatten_cons, List.append_assoc, ihm]
  intro n
  induction n with
  | zero => rfl
  | succ n ih =>
    rw [List.range_succ, List.flatMap_append, ih, List.replicate_succ, List.flatten_cons]
    simp [comm n]

theorem convAt_roles (t0 : List Nat) (oR gR : Nat → List Nat) (r : Nat) :
    (convAt t0 oR gR r).map ChatMsg.role =
      jstr "user" ::
        List.flatten (List.replicate (r - 1)
          ([jstr "assistant", jstr "user"] : List (List Nat))) := by
  unfold convAt
  rw [List.map_cons]
  congr 1
  rw [List.map_flatMap]
  exact flatMap_const_range ([jstr "assistant", jstr "user"] : List (List Nat)) (r - 1)

theorem rolePattern_pairs :
    ∀ n, rolePattern false (List.flatten (List.replicate n
      ([jstr "assistant", jstr "user"] : List (List Nat)))) = true := by
  intro n
  induction n with
  | zero => rfl
  | succ n ih =>
    rw [List.replicate_succ, List.flatten_cons]
    simp only [List.cons_append, List.nil_append]
    rw [show rolePattern false (jstr "assistant" :: jstr "user" ::
        List.flatten (List.replicate n ([jstr "assistant", jstr "user"] : List (List Nat)))) =
      rolePattern false (List.flatten (List.replicate n
        ([jstr "assistant", jstr "user"] : List (List Nat)))) from by
        simp [rolePattern]]
    exact ih

theorem lastRole_pairs :
    ∀ n, (jstr "user" :: List.flatten (List.replicate n
      ([jstr "assistant", jstr "user"] : List (List Nat)))).getLast? =
      some (jstr "user") := by
  intro n
  induction n with
  | zero => rfl
  | succ n ih =>
    rw [List.replicate_succ, List.flatten_cons]
    simp only [List.cons_append, List.nil_append]
    rw [List.getLast?_cons_cons, List.getLast?_cons_cons]
    exact ih

theorem length_pairs :
    ∀ n, (List.flatten (List.replicate n
      ([jstr "assistant", jstr "user"] : List (List Nat)))).length = 2 * n := by
  intro n
  induction n with
  | zero => rfl
  | succ n ih =>
    rw [List.replicate_succ, List.flatten_cons, List.length_append, ih]
    simp
    omega

theorem callsUpTo_length (t0 : List Nat) (oR gR : Nat → List Nat) (temp : JsNum) :
    ∀ N, (callsUpTo t0 oR gR temp N).length = 2 * N := by
  intro N
  induction N with
  | zero => rfl
  | succ N ih =>
    rw [show callsUpTo t0 oR gR temp (N + 1) = callsUpTo t0 oR gR temp N ++
      [CallEvent.openaiCall (convAt t0 oR gR (N + 1)) temp (JsNum.num 1500),
       CallEvent.geminiCall (createGeminiPrompt (oR (N + 1))) temp (JsNum.num 1500)] from rfl]
    rw [List.length_append, ih]
    simp
    omega

theorem callsUpTo_getElem (t0 : List Nat) (oR gR : Nat → List Nat) (temp : JsNum) :
    ∀ N r, 1 ≤ r → r ≤ N →
      (callsUpTo t0 oR gR temp N)[2 * (r - 1)]? =
        some (CallEvent.openaiCall (convAt t0 oR gR r) temp (JsNum.num 1500)) ∧
      (callsUpTo t0 oR gR temp N)[2 * (r - 1) + 1]? =
        some (CallEvent.geminiCall (createGeminiPrompt (oR r)) temp (JsNum.num 1500)) := by
  intro N
  induction N with
  | zero => intro r h1 h2; omega
  | succ N ih =>
    intro r h1 h2
    rw [show callsUpTo t0 oR gR temp (N + 1) = callsUpTo t0 oR gR temp N ++
      [CallEvent.openaiCall (convAt t0 oR gR (N + 1)) temp (JsNum.num 1500),
       CallEvent.geminiCall (createGeminiPrompt (oR (N + 1))) temp (JsNum.num 1500)] from rfl]
    by_cases hr : r ≤ N
    · have hprev := ih r h1 hr
      rw [List.getElem?_append, List.getElem?_append]
      rw [if_pos (by rw [callsUpTo_length]; omega), if_pos (by rw [callsUpTo_length]; omega)]
      exact hprev
    · have hreq : r = N + 1 := by omega
      subst hreq
      rw [List.getElem?_append, List.getElem?_append]
      rw [if_neg (by rw [callsUpTo_length]; omega), if_neg (by rw [callsUpTo_length]; omega)]
      rw [callsUpTo_length]
      constructor
      · rw [show 2 * (N + 1 - 1) - 2 * N = 0 from by omega]
        rfl
      · rw [show 2 * (N + 1 - 1) + 1 - 2 * N = 1 from by omega]
        rfl

theorem startsWith_self_append : ∀ (p b : List Nat), startsWith p (p ++ b) = true := by
  intro p
  induction p with
  | nil => intro b; rfl
  | cons c p ih =>
    intro b
    rw [List.cons_append]
    rw [show startsWith (c :: p) (c :: (p ++ b)) = startsWith p (p ++ b) from by
      simp [startsWith]]
    exact ih b

theorem containsSub_of_startsWith (x s : List Nat) (h : startsWith x s = true) :
    containsSub x s = true := by
  cases s with
  | nil => exact h
  | cons c cs =>
    rw [show containsSub x (c :: cs) = (startsWith x (c :: cs) || containsSub x cs) from rfl]
    rw [h]
    rfl

theorem containsSub_sandwich : ∀ (a x b : List Nat), containsSub x (a ++ (x ++ b)) = true := by
  intro a
  induction a with
  | nil =>
    intro x b
    rw [List.nil_append]
    exact containsSub_of_startsWith x (x ++ b) (startsWith_self_append x b)
  | cons c a ih =>
    intro x b
    rw [List.cons_append]
    rw [show containsSub x (c :: (a ++ (x ++ b))) =
      (startsWith x (c :: (a ++ (x ++ b))) || containsSub x (a ++ (x ++ b))) from rfl]
    rw [ih x b]
    simp

/-- C9: in a run whose providers answer `oR`/`gR`, the engine's recorded call
list is exactly `callsUpTo`: for every round `r` up to the effective round
count, OpenAI is called with the full accumulated conversation — `2r - 1`
entries alternating `user`/`assistant` starting and ending with `user` —
while Gemini is called with the fresh single prompt built from round `r`'s
OpenAI output, which it quotes verbatim and which `generateContent` wraps as
a one-entry `user` conversation; no Gemini history is carried between
rounds. -/
theorem claim_C9_conversation_shape (P : Providers) (topic : Option (List Nat))
    (m1 m2 t0 : List Nat) (rounds temperature : Option JsNum)
    (oR gR : Nat → List Nat) (N : Nat)
    (h1 : P.openaiAvailable = true) (h2 : P.geminiAvailable = true)
    (hs : validateAndSanitizeInput topic 1000 = Except.ok t0)
    (hN : loopIterations (effectiveRounds rounds) = N)
    (hok : ∀ k, 1 ≤ k → k ≤ N →
      P.openaiResult k = Except.ok (oR k) ∧ P.geminiResult k = Except.ok (gR k)) :
    (conductWallBounce P topic m1 m2 rounds temperature).2 =
      callsUpTo t0 oR gR (effectiveTemperature temperature) N ∧
    (∀ r, 1 ≤ r → r ≤ N →
      (convAt t0 oR gR r).length = 2 * r - 1 ∧
      rolePattern true ((convAt t0 oR gR r).map ChatMsg.role) = true ∧
      ((convAt t0 oR gR r).map ChatMsg.role).getLast? = some (jstr "user") ∧
      (callsUpTo t0 oR gR (effectiveTemperature temperature) N)[2 * (r - 1)]? =
        some (CallEvent.openaiCall (convAt t0 oR gR r)
          (effectiveTemperature temperature) (JsNum.num 1500)) ∧
      (callsUpTo t0 oR gR (effectiveTemperature temperature) N)[2 * (r - 1) + 1]? =
        some (CallEvent.geminiCall (createGeminiPrompt (oR r))
          (effectiveTemperature temperature) (JsNum.num 1500)) ∧
      containsSub (oR r) (createGeminiPrompt (oR r)) = true ∧
      (geminiContents (createGeminiPrompt (oR r))).length = 1) := by
  constructor
  · have hrun := roundLoop_full_success P m1 m2 t0 (effectiveTemperature temperature) oR gR N hok
    rw [conductWallBounce_loopRes P topic m1 m2 t0 rounds temperature none
      (logUpTo t0 m1 m2 oR gR N) (callsUpTo t0 oR gR (effectiveTemperature temperature) N)
      h1 h2 hs (by rw [hN]; exact hrun)]
  · intro r hr1 hrN
    have hroles := convAt_roles t0 oR gR r
    have hlen : (convAt t0 oR gR r).length = 2 * r - 1 := by
      have hl := congrArg List.length hroles
      rw [List.length_map] at hl
      rw [hl, List.length_cons, length_pairs]
      omega
    refine ⟨hlen, ?_, ?_, (callsUpTo_getElem t0 oR gR _ N r hr1 hrN).1,
      (callsUpTo_getElem t0 oR gR _ N r hr1 hrN).2, ?_, rfl⟩
    · rw [hroles]
      have hstep : rolePattern true (jstr "user" ::
          List.flatten (List.replicate (r - 1)
            ([jstr "assistant", jstr "user"] : List (List Nat)))) =
          rolePattern false (List.flatten (List.replicate (r - 1)
            ([jstr "assistant", jstr "user"] : List (List Nat)))) := by
        simp [rolePattern]
      rw [hstep]
      exact rolePattern_pairs (r - 1)
    · rw [hroles]
      exact lastRole_pairs (r - 1)
    · unfold createGeminiPrompt
      rw [List.append_assoc]
      exact containsSub_sandwich _ (oR r) _

set_option maxRecDepth 100000 in
/-- Witness for C9: a concrete two-round run records exactly the expected
four calls; round 2's OpenAI conversation has three alternating entries and
Gemini's prompt quotes OpenAI's output verbatim. -/
theorem claim_C9_conversation_shape_witness :
    (conductWallBounce
        ⟨true, true, fun _ => Except.ok (jstr "A"), fun _ => Except.ok (jstr "B")⟩
        (some [97]) [109] [110] (some (JsNum.num 2)) (some (JsNum.num 1))).2 =
      callsUpTo [97] (fun _ => jstr "A") (fun _ => jstr "B")
        (effectiveTemperature (some (JsNum.num 1))) 2 ∧
    (convAt [97] (fun _ => jstr "A") (fun _ => jstr "B") 2).length = 2 * 2 - 1 ∧
    rolePattern true
      ((convAt [97] (fun _ => jstr "A") (fun _ => jstr "B") 2).map ChatMsg.role) = true ∧
    containsSub (jstr "A") (createGeminiPrompt (jstr "A")) = true := by
  have h := claim_C9_conversation_shape
    ⟨true, true, fun _ => Except.ok (jstr "A"), fun _ => Except.ok (jstr "B")⟩
    (some [97]) [109] [110] [97] (some (JsNum.num 2)) (some (JsNum.num 1))
    (fun _ => jstr "A") (fun _ => jstr "B") 2 rfl rfl (by decide) (by decide)
    (fun k _ _ => ⟨rfl, rfl⟩)
  exact ⟨h.1, (h.2 2 (by omega) (by omega)).1, (h.2 2 (by omega) (by omega)).2.1,
    (h.2 2 (by omega) (by omega)).2.2.2.2.2.1⟩

/-! ## Counting marker lines in transcripts

The markers of interest (`"## Round "`, `"## Summary"`) contain no newline
and start with `#`, and `lineCount` counts the string start plus the
occurrences of `"\n" ++ marker`.  The lemmas below split such counts across
the concatenations the engine builds. -/

theorem startsWith_cons_ne (c d : Nat) (p s : List Nat) (h : ¬(c = d)) :
    startsWith (c :: p) (d :: s) = false := by
  simp [startsWith, h]

theorem startsWith_append_not_mem (x : Nat) :
    ∀ (s p b : List Nat), x ∉ p → startsWith p (s ++ x :: b) = startsWith p s := by
  intro s
  induction s with
  | nil =>
    intro p b hx
    cases p with
    | nil => rfl
    | cons d p' =>
      rw [List.nil_append]
      have hdx : ¬(d = x) := fun h => hx (h ▸ List.mem_cons_self d p')
      rw [startsWith_cons_ne d x p' b hdx]
      rfl
  | cons c s' ih =>
    intro p b hx
    cases p with
    | nil => rfl
    | cons d p' =>
      rw [List.cons_append]
      by_cases hdc : d = c
      · subst hdc
        rw [show startsWith (d :: p') (d :: (s' ++ x :: b)) =
            startsWith p' (s' ++ x :: b) from by simp [startsWith],
          show startsWith (d :: p') (d :: s') = startsWith p' s' from by simp [startsWith]]
        exact ih p' b (fun h => hx (List.mem_cons_of_mem d h))
      · rw [startsWith_cons_ne d c p' (s' ++ x :: b) hdc, startsWith_cons_ne d c p' s' hdc]

theorem countSub_skip (q : List Nat) :
    ∀ (a b : List Nat), 10 ∉ a → countSub (10 :: q) (a ++ b) = countSub (10 :: q) b := by
  intro a
  induction a with
  | nil => intro b _; rfl
  | cons c a' ih =>
    intro b ha
    rw [List.cons_append]
    rw [show countSub (10 :: q) (c :: (a' ++ b)) =
      (if startsWith (10 :: q) (c :: (a' ++ b)) then 1 else 0) +
        countSub (10 :: q) (a' ++ b) from rfl]
    have hc : ¬((10 : Nat) = c) := fun h => ha (h ▸ List.mem_cons_self c a')
    rw [startsWith_cons_ne 10 c q (a' ++ b) hc]
    rw [ih b (fun h => ha (List.mem_cons_of_mem c h))]
    simp

theorem countSub_no_newline (q a : List Nat) (ha : 10 ∉ a) : countSub (10 :: q) a = 0 := by
  have := countSub_skip q a [] ha
  rw [List.append_nil] at this
  rw [this]
  rfl

theorem countSub_cons_newline (q b : List Nat) :
    countSub (10 :: q) (10 :: b) =
      (if startsWith q b then 1 else 0) + countSub (10 :: q) b := by
  rw [show countSub (10 :: q) (10 :: b) =
    (if startsWith (10 :: q) (10 :: b) then 1 else 0) + countSub (10 :: q) b from rfl]
  rw [show startsWith (10 :: q) (10 :: b) = startsWith q b from by simp [startsWith]]

theorem countSub_append_cons (q : List Nat) (x : Nat) (hx : x ∉ q) :
    ∀ (a b : List Nat),
      countSub (10 :: q) (a ++ x :: b) =
        countSub (10 :: q) a + countSub (10 :: q) (x :: b) := by
  intro a
  induction a with
  | nil => intro b; simp [countSub]
  | cons c a' ih =>
    intro b
    rw [List.cons_append]
    rw [show countSub (10 :: q) (c :: (a' ++ x :: b)) =
      (if startsWith (10 :: q) (c :: (a' ++ x :: b)) then 1 else 0) +
        countSub (10 :: q) (a' ++ x :: b) from rfl]
    rw [show countSub (10 :: q) (c :: a') =
      (if startsWith (10 :: q) (c :: a') then 1 else 0) + countSub (10 :: q) a' from rfl]
    rw [ih b]
    by_cases hc : (10 : Nat) = c
    · subst hc
      rw [show startsWith (10 :: q) (10 :: (a' ++ x :: b)) =
          startsWith q (a' ++ x :: b) from by simp [startsWith],
        show startsWith (10 :: q) (10 :: a') = startsWith q a' from by simp [startsWith]]
      rw [startsWith_append_not_mem x a' q b hx]
      omega
    · rw [startsWith_cons_ne 10 c q (a' ++ x :: b) hc, startsWith_cons_ne 10 c q a' hc]
      omega

theorem natDigitsAux_digits :
    ∀ (fuel n : Nat) (acc : List Nat), (∀ c ∈ acc, 48 ≤ c ∧ c ≤ 57) →
      ∀ c ∈ natDigitsAux fuel n acc, 48 ≤ c ∧ c ≤ 57 := by
  intro fuel
  induction fuel with
  | zero => intro n acc hacc c hc; exact hacc c hc
  | succ fuel ih =>
    intro n acc hacc c hc
    rw [natDigitsAux] at hc
    by_cases hn : n < 10
    · rw [if_pos hn] at hc
      rcases List.mem_cons.mp hc with h | h
      · subst h; omega
      · exact hacc c h
    · rw [if_neg hn] at hc
      refine ih (n / 10) _ ?_ c hc
      intro d hd
      rcases List.mem_cons.mp hd with h | h
      · subst h
        have := Nat.mod_lt n (show 0 < 10 from by omega)
        omega
      · exact hacc d h

theorem natDigits_no_newline (n : Nat) : 10 ∉ natDigits n := by
  intro h
  have := natDigitsAux_digits (n + 1) n [] (by simp) 10 h
  omega

theorem intDigits_no_newline (i : Int) : 10 ∉ intDigits i := by
  unfold intDigits
  intro h
  rcases List.mem_append.mp h with h | h
  · by_cases hi : i < 0
    · rw [if_pos hi] at h; simp at h
    · rw [if_neg hi] at h; simp at h
  · exact natDigits_no_newline _ h

theorem jsNumToString_num (q : ℚ) :
    jsNumToString (JsNum.num q) =
      if q.den = 1 then intDigits q.num
      else intDigits q.num ++ [47] ++ natDigits q.den := rfl

theorem jsNumToString_no_newline (v : JsNum) : 10 ∉ jsNumToString v := by
  cases v with
  | nan => decide
  | num q =>
    rw [jsNumToString_num]
    by_cases hd : q.den = 1
    · rw [if_pos hd]
      exact intDigits_no_newline q.num
    · rw [if_neg hd]
      intro h
      rcases List.mem_append.mp h with h | h
      · rcases List.mem_append.mp h with h | h
        · exact intDigits_no_newline q.num h
        · simp at h
      · exact natDigits_no_newline q.den h

theorem startsWith_marker_cons10 (rest C : List Nat) :
    startsWith (35 :: rest) (10 :: C) = false :=
  startsWith_cons_ne 35 10 rest C (by omega)

theorem countSub_modelSection (q : List Nat) (hq10 : 10 ∉ q) (rest : List Nat)
    (hq : q = 35 :: rest) (m resp B : List Nat) (hm : 10 ∉ m)
    (h0 : countSub (10 :: q) resp = 0) (hsw : startsWith q resp = false) :
    countSub (10 :: q) (modelSection m resp ++ B) = countSub (10 :: q) (10 :: B) := by
  rw [show modelSection m resp ++ B =
      jstr "### " ++ (m ++ ([58] ++ (10 :: (resp ++ (10 :: 10 :: B))))) from by
    unfold modelSection
    rw [show jstr ":\n" = [58, 10] from rfl, show jstr "\n\n" = [10, 10] from rfl]
    simp [List.append_assoc]]
  rw [countSub_skip q (jstr "### ") _ (by decide)]
  rw [countSub_skip q m _ hm]
  rw [countSub_skip q [58] _ (by decide)]
  rw [countSub_cons_newline]
  rw [startsWith_append_not_mem 10 resp q (10 :: B) hq10]
  rw [hsw]
  rw [countSub_append_cons q 10 hq10 resp (10 :: B)]
  rw [h0]
  rw [countSub_cons_newline q (10 :: B)]
  rw [hq, startsWith_marker_cons10 rest B]
  simp

theorem countSub_roundHeader (q : List Nat) (_hq10 : 10 ∉ q) (rest : List Nat)
    (hq : q = 35 :: rest) (r : Nat) (B : List Nat) :
    countSub (10 :: q) (roundHeaderStr r ++ B) = countSub (10 :: q) (10 :: B) := by
  rw [show roundHeaderStr r ++ B = jstr "## Round " ++ (natDigits r ++ (10 :: 10 :: B)) from by
    unfold roundHeaderStr
    rw [show jstr "\n\n" = [10, 10] from rfl]
    simp [List.append_assoc]]
  rw [countSub_skip q (jstr "## Round ") _ (by decide)]
  rw [countSub_skip q (natDigits r) _ (natDigits_no_newline r)]
  rw [countSub_cons_newline]
  rw [hq, startsWith_marker_cons10 rest B]
  simp

theorem startsWith_marker_modelSection (rest m resp B : List Nat) :
    startsWith (35 :: 35 :: 32 :: rest) (modelSection m resp ++ B) = false := by
  rw [show modelSection m resp ++ B =
      35 :: 35 :: 35 :: (32 :: (m ++ (jstr ":\n" ++ (resp ++ (jstr "\n\n" ++ B))))) from by
    unfold modelSection
    rw [show jstr "### " = [35, 35, 35, 32] from rfl]
    simp [List.append_assoc]]
  simp [startsWith]

theorem countSub_fullSection_append (q : List Nat) (hq10 : 10 ∉ q) (rest : List Nat)
    (hq : q = 35 :: 35 :: 32 :: rest) (m1 m2 : List Nat) (hm1 : 10 ∉ m1) (hm2 : 10 ∉ m2)
    (x y B : List Nat) (r : Nat)
    (ho : countSub (10 :: q) x = 0) (hos : startsWith q x = false)
    (hg : countSub (10 :: q) y = 0) (hgs : startsWith q y = false) :
    countSub (10 :: q) ((roundHeaderStr r ++ modelSection m1 x ++ modelSection m2 y) ++ B) =
      countSub (10 :: q) (10 :: B) := by
  rw [show (roundHeaderStr r ++ modelSection m1 x ++ modelSection m2 y) ++ B =
      roundHeaderStr r ++ (modelSection m1 x ++ (modelSection m2 y ++ B)) from by
    simp [List.append_assoc]]
  rw [countSub_roundHeader q hq10 (35 :: 32 :: rest) hq r]
  rw [countSub_cons_newline]
  rw [hq, startsWith_marker_modelSection rest m1 x (modelSection m2 y ++ B)]
  rw [← hq]
  rw [countSub_modelSection q hq10 (35 :: 32 :: rest) hq m1 x _ hm1 ho hos]
  rw [countSub_cons_newline]
  rw [hq, startsWith_marker_modelSection rest m2 y B]
  rw [← hq]
  rw [countSub_modelSection q hq10 (35 :: 32 :: rest) hq m2 y B hm2 hg hgs]
  simp

theorem startsWith_roundMarker_fullSection (m1 m2 x y B : List Nat) (r : Nat) :
    startsWith roundMarker
      ((roundHeaderStr r ++ modelSection m1 x ++ modelSection m2 y) ++ B) = true := by
  rw [show (roundHeaderStr r ++ modelSection m1 x ++ modelSection m2 y) ++ B =
      roundMarker ++ (natDigits r ++ (jstr "\n\n" ++
        (modelSection m1 x ++ (modelSection m2 y ++ B)))) from by
    unfold roundHeaderStr roundMarker
    simp [List.append_assoc]]
  exact startsWith_self_append roundMarker _

theorem startsWith_roundMarker_roundHeader (r : Nat) (B : List Nat) :
    startsWith roundMarker (roundHeaderStr r ++ B) = true := by
  rw [show roundHeaderStr r ++ B =
      roundMarker ++ (natDigits r ++ (jstr "\n\n" ++ B)) from by
    unfold roundHeaderStr roundMarker
    simp [List.append_assoc]]
  exact startsWith_self_append roundMarker _

theorem startsWith_summaryMarker_fullSection (m1 m2 x y B : List Nat) (r : Nat) :
    startsWith summaryMarker
      ((roundHeaderStr r ++ modelSection m1 x ++ modelSection m2 y) ++ B) = false := by
  rw [show (roundHeaderStr r ++ modelSection m1 x ++ modelSection m2 y) ++ B =
      35 :: 35 :: 32 :: 82 :: (jstr "ound " ++ (natDigits r ++ (jstr "\n\n" ++
        (modelSection m1 x ++ (modelSection m2 y ++ B))))) from by
    unfold roundHeaderStr
    rw [show jstr "## Round " = 35 :: 35 :: 32 :: 82 :: jstr "ound " from rfl]
    simp [List.append_assoc]]
  rw [show summaryMarker = 35 :: 35 :: 32 :: 83 :: jstr "ummary" from rfl]
  simp [startsWith]

theorem startsWith_summaryMarker_roundHeader (r : Nat) (B : List Nat) :
    startsWith summaryMarker (roundHeaderStr r ++ B) = false := by
  rw [show roundHeaderStr r ++ B =
      35 :: 35 :: 32 :: 82 :: (jstr "ound " ++ (natDigits r ++ (jstr "\n\n" ++ B))) from by
    unfold roundHeaderStr
    rw [show jstr "## Round " = 35 :: 35 :: 32 :: 82 :: jstr "ound " from rfl]
    simp [List.append_assoc]]
  rw [show summaryMarker = 35 :: 35 :: 32 :: 83 :: jstr "ummary" from rfl]
  simp [startsWith]

theorem startsWith_marker_headerStr (rest t0 Z : List Nat) :
    startsWith (35 :: 35 :: rest) (headerStr t0 ++ Z) = false := by
  rw [show headerStr t0 ++ Z =
      35 :: 32 :: (jstr "Wall Bounce Discussion: " ++ (t0 ++ (jstr "\n\n" ++ Z))) from by
    unfold headerStr
    rw [show jstr "# Wall Bounce Discussion: " =
      35 :: 32 :: jstr "Wall Bounce Discussion: " from rfl]
    simp [List.append_assoc]]
  simp [startsWith]

theorem logUpTo_header_append (t0 m1 m2 : List Nat) (oR gR : Nat → List Nat) :
    ∀ r, ∃ Z, logUpTo t0 m1 m2 oR gR r = headerStr t0 ++ Z := by
  intro r
  induction r with
  | zero => exact ⟨[], (List.append_nil _).symm⟩
  | succ r ih =>
    obtain ⟨Z, hZ⟩ := ih
    refine ⟨Z ++ fullSection m1 m2 oR gR (r + 1), ?_⟩
    rw [show logUpTo t0 m1 m2 oR gR (r + 1) =
      logUpTo t0 m1 m2 oR gR r ++ fullSection m1 m2 oR gR (r + 1) from rfl, hZ,
      List.append_assoc]

theorem countSub_headerStr (q : List Nat) (hq10 : 10 ∉ q) (rest : List Nat)
    (hq : q = 35 :: rest) (t0 B : List Nat) (ht : countSub (10 :: q) t0 = 0) :
    countSub (10 :: q) (headerStr t0 ++ B) = countSub (10 :: q) (10 :: B) := by
  rw [show headerStr t0 ++ B =
      jstr "# Wall Bounce Discussion: " ++ (t0 ++ (10 :: 10 :: B)) from by
    unfold headerStr
    rw [show jstr "\n\n" = [10, 10] from rfl]
    simp [List.append_assoc]]
  rw [countSub_skip q (jstr "# Wall Bounce Discussion: ") _ (by decide)]
  rw [countSub_append_cons q 10 hq10 t0 (10 :: B), ht]
  rw [countSub_cons_newline q (10 :: B)]
  rw [hq, startsWith_marker_cons10 rest B]
  simp

theorem countSub_logUpTo_round (t0 m1 m2 : List Nat) (oR gR : Nat → List Nat)
    (ht : countSub (10 :: roundMarker) t0 = 0) (hm1 : 10 ∉ m1) (hm2 : 10 ∉ m2) :
    ∀ (r : Nat) (B : List Nat),
      (∀ k, 1 ≤ k → k ≤ r →
        countSub (10 :: roundMarker) (oR k) = 0 ∧ startsWith roundMarker (oR k) = false ∧
        countSub (10 :: roundMarker) (gR k) = 0 ∧ startsWith roundMarker (gR k) = false) →
      countSub (10 :: roundMarker) (logUpTo t0 m1 m2 oR gR r ++ B) =
        r + countSub (10 :: roundMarker) (10 :: B) := by
  intro r
  induction r with
  | zero =>
    intro B _
    rw [show logUpTo t0 m1 m2 oR gR 0 = headerStr t0 from rfl]
    rw [countSub_headerStr roundMarker (by decide) (35 :: 32 :: jstr "Round ") rfl t0 B ht]
    simp
  | succ r ih =>
    intro B hresp
    rw [show logUpTo t0 m1 m2 oR gR (r + 1) ++ B =
        logUpTo t0 m1 m2 oR gR r ++ (fullSection m1 m2 oR gR (r + 1) ++ B) from by
      rw [show logUpTo t0 m1 m2 oR gR (r + 1) =
        logUpTo t0 m1 m2 oR gR r ++ fullSection m1 m2 oR gR (r + 1) from rfl]
      simp [List.append_assoc]]
    rw [ih (fullSection m1 m2 oR gR (r + 1) ++ B) (fun k h1 h2 => hresp k h1 (by omega))]
    rw [countSub_cons_newline]
    have hk := hresp (r + 1) (by omega) (by omega)
    rw [show fullSection m1 m2 oR gR (r + 1) ++ B =
      (roundHeaderStr (r + 1) ++ modelSection m1 (oR (r + 1)) ++
        modelSection m2 (gR (r + 1))) ++ B from rfl]
    rw [startsWith_roundMarker_fullSection m1 m2 (oR (r + 1)) (gR (r + 1)) B (r + 1)]
    rw [countSub_fullSection_append roundMarker (by decide) (jstr "Round ") rfl m1 m2 hm1 hm2
      (oR (r + 1)) (gR (r + 1)) B (r + 1) hk.1 hk.2.1 hk.2.2.1 hk.2.2.2]
    simp
    omega

theorem countSub_logUpTo_summary (t0 m1 m2 : List Nat) (oR gR : Nat → List Nat)
    (ht : countSub (10 :: summaryMarker) t0 = 0) (hm1 : 10 ∉ m1) (hm2 : 10 ∉ m2) :
    ∀ (r : Nat) (B : List Nat),
      (∀ k, 1 ≤ k → k ≤ r →
        countSub (10 :: summaryMarker) (oR k) = 0 ∧
        startsWith summaryMarker (oR k) = false ∧
        countSub (10 :: summaryMarker) (gR k) = 0 ∧
        startsWith summaryMarker (gR k) = false) →
      countSub (10 :: summaryMarker) (logUpTo t0 m1 m2 oR gR r ++ B) =
        countSub (10 :: summaryMarker) (10 :: B) := by
  intro r
  induction r with
  | zero =>
    intro B _
    rw [show logUpTo t0 m1 m2 oR gR 0 = headerStr t0 from rfl]
    rw [countSub_headerStr summaryMarker (by decide) (35 :: 32 :: jstr "Summary") rfl t0 B ht]
  | succ r ih =>
    intro B hresp
    rw [show logUpTo t0 m1 m2 oR gR (r + 1) ++ B =
        logUpTo t0 m1 m2 oR gR r ++ (fullSection m1 m2 oR gR (r + 1) ++ B) from by
      rw [show logUpTo t0 m1 m2 oR gR (r + 1) =
        logUpTo t0 m1 m2 oR gR r ++ fullSection m1 m2 oR gR (r + 1) from rfl]
      simp [List.append_assoc]]
    rw [ih (fullSection m1 m2 oR gR (r + 1) ++ B) (fun k h1 h2 => hresp k h1 (by omega))]
    rw [countSub_cons_newline]
    have hk := hresp (r + 1) (by omega) (by omega)
    rw [show fullSection m1 m2 oR gR (r + 1) ++ B =
      (roundHeaderStr (r + 1) ++ modelSection m1 (oR (r + 1)) ++
        modelSection m2 (gR (r + 1))) ++ B from rfl]
    rw [startsWith_summaryMarker_fullSection m1 m2 (oR (r + 1)) (gR (r + 1)) B (r + 1)]
    rw [countSub_fullSection_append summaryMarker (by decide) (jstr "Summary") rfl m1 m2 hm1 hm2
      (oR (r + 1)) (gR (r + 1)) B (r + 1) hk.1 hk.2.1 hk.2.2.1 hk.2.2.2]
    simp

theorem countSub_cons_other (q : List Nat) (c : Nat) (hc : ¬((10 : Nat) = c)) (b : List Nat) :
    countSub (10 :: q) (c :: b) = countSub (10 :: q) b := by
  rw [show countSub (10 :: q) (c :: b) =
    (if startsWith (10 :: q) (c :: b) then 1 else 0) + countSub (10 :: q) b from rfl]
  rw [startsWith_cons_ne 10 c q b hc]
  simp

theorem countSub_marker_summary (q : List Nat) (_hq10 : 10 ∉ q) (rest : List Nat)
    (hq : q = 35 :: rest) (h12301 : (12301 : Nat) ∉ q)
    (m1 m2 : List Nat) (hm1 : 10 ∉ m1) (hm2 : 10 ∉ m2) (R : JsNum) (t0 : List Nat)
    (ht : countSub (10 :: q) t0 = 0) :
    countSub (10 :: q) (createSummary m1 m2 R t0) = 0 := by
  rw [show createSummary m1 m2 R t0 =
      jstr "## Summary" ++ (10 :: 10 :: 12371 :: (jstr "の壁打ちセッションでは、" ++
        (m1 ++ (jstr "と" ++ (m2 ++ (jstr "が" ++ (jsNumToString R ++
          (jstr "ラウンドにわたって「" ++ (t0 ++ (12301 ::
            jstr "について議論しました。両モデルが異なる視点と専門知識を提供し、包括的な対話が行われました。")))))))))) from by
    unfold createSummary
    rw [show jstr "## Summary\n\nこの壁打ちセッションでは、" =
        jstr "## Summary" ++ (10 :: 10 :: 12371 :: jstr "の壁打ちセッションでは、") from rfl,
      show jstr "」について議論しました。両モデルが異なる視点と専門知識を提供し、包括的な対話が行われました。" =
        12301 :: jstr "について議論しました。両モデルが異なる視点と専門知識を提供し、包括的な対話が行われました。" from rfl]
    simp [List.append_assoc]]
  rw [countSub_skip q (jstr "## Summary") _ (by decide)]
  rw [countSub_cons_newline]
  rw [hq]
  rw [startsWith_marker_cons10 rest _]
  rw [countSub_cons_newline]
  rw [startsWith_cons_ne 35 12371 rest _ (by omega)]
  rw [← hq]
  rw [countSub_cons_other q 12371 (by omega)]
  rw [countSub_skip q (jstr "の壁打ちセッションでは、") _ (by decide)]
  rw [countSub_skip q m1 _ hm1]
  rw [countSub_skip q (jstr "と") _ (by decide)]
  rw [countSub_skip q m2 _ hm2]
  rw [countSub_skip q (jstr "が") _ (by decide)]
  rw [countSub_skip q (jsNumToString R) _ (jsNumToString_no_newline R)]
  rw [countSub_skip q (jstr "ラウンドにわたって「") _ (by decide)]
  rw [countSub_append_cons q 12301 h12301 t0 _]
  rw [ht]
  rw [countSub_no_newline q (12301 ::
    jstr "について議論しました。両モデルが異なる視点と専門知識を提供し、包括的な対話が行われました。") (by decide)]
  simp

theorem startsWith_marker_recovered (rest e L : List Nat) :
    startsWith (35 :: rest) (recoveredStr e L) = false := by
  rw [show recoveredStr e L = 22721 :: (jstr "打ちセッション中にエラーが発生しました: " ++
      (e ++ (jstr "\n\n現在までの議論:\n" ++ L))) from by
    unfold recoveredStr
    rw [show jstr "壁打ちセッション中にエラーが発生しました: " =
      22721 :: jstr "打ちセッション中にエラーが発生しました: " from rfl]
    simp [List.append_assoc]]
  exact startsWith_cons_ne 35 22721 rest _ (by omega)

theorem countSub_recovered (q : List Nat) (hq10 : 10 ∉ q) (rest : List Nat)
    (hq : q = 35 :: rest) (e L : List Nat) (he : countSub (10 :: q) e = 0) :
    countSub (10 :: q) (recoveredStr e L) =
      (if startsWith q L then 1 else 0) + countSub (10 :: q) L := by
  rw [show recoveredStr e L = jstr "壁打ちセッション中にエラーが発生しました: " ++
      (e ++ (10 :: 10 :: 29694 :: (jstr "在までの議論:" ++ (10 :: L)))) from by
    unfold recoveredStr
    rw [show jstr "\n\n現在までの議論:\n" =
      10 :: 10 :: 29694 :: (jstr "在までの議論:" ++ [10]) from rfl]
    simp [List.append_assoc]]
  rw [countSub_skip q (jstr "壁打ちセッション中にエラーが発生しました: ") _ (by decide)]
  rw [countSub_append_cons q 10 hq10 e _, he]
  rw [countSub_cons_newline]
  rw [hq]
  rw [startsWith_marker_cons10 rest _]
  rw [countSub_cons_newline]
  rw [startsWith_cons_ne 35 29694 rest _ (by omega)]
  rw [← hq]
  rw [countSub_cons_other q 29694 (by omega)]
  rw [countSub_skip q (jstr "在までの議論:") _ (by decide)]
  rw [countSub_cons_newline]
  simp

theorem startsWith_roundMarker_summary (m1 m2 : List Nat) (R : JsNum) (t0 : List Nat) :
    startsWith roundMarker (createSummary m1 m2 R t0) = false := by
  rw [show createSummary m1 m2 R t0 = 35 :: 35 :: 32 :: 83 ::
      (jstr "ummary\n\nこの壁打ちセッションでは、" ++ (m1 ++ (jstr "と" ++ (m2 ++ (jstr "が" ++
        (jsNumToString R ++ (jstr "ラウンドにわたって「" ++ (t0 ++
          jstr "」について議論しました。両モデルが異なる視点と専門知識を提供し、包括的な対話が行われました。")))))))) from by
    unfold createSummary
    rw [show jstr "## Summary\n\nこの壁打ちセッションでは、" = 35 :: 35 :: 32 :: 83 ::
      jstr "ummary\n\nこの壁打ちセッションでは、" from rfl]
    simp [List.append_assoc]]
  rw [show roundMarker = 35 :: 35 :: 32 :: 82 :: jstr "ound " from rfl]
  simp [startsWith]

theorem countSub_roundHeader_alone (q : List Nat) (hq10 : 10 ∉ q) (rest : List Nat)
    (hq : q = 35 :: rest) (r : Nat) :
    countSub (10 :: q) (roundHeaderStr r) = 0 := by
  have h := countSub_roundHeader q hq10 rest hq r []
  rw [List.append_nil] at h
  rw [h, hq]
  simp [countSub, startsWith]

theorem countSub_modelSection_alone (q : List Nat) (hq10 : 10 ∉ q) (rest : List Nat)
    (hq : q = 35 :: rest) (m resp : List Nat) (hm : 10 ∉ m)
    (h0 : countSub (10 :: q) resp = 0) (hsw : startsWith q resp = false) :
    countSub (10 :: q) (modelSection m resp) = 0 := by
  have h := countSub_modelSection q hq10 rest hq m resp [] hm h0 hsw
  rw [List.append_nil] at h
  rw [h, hq]
  simp [countSub, startsWith]

theorem lineCount_round_success (t0 m1 m2 : List Nat) (oR gR : Nat → List Nat)
    (N : Nat) (R : JsNum)
    (ht : countSub (10 :: roundMarker) t0 = 0) (hm1 : 10 ∉ m1) (hm2 : 10 ∉ m2)
    (hresp : ∀ k, 1 ≤ k → k ≤ N →
      countSub (10 :: roundMarker) (oR k) = 0 ∧ startsWith roundMarker (oR k) = false ∧
      countSub (10 :: roundMarker) (gR k) = 0 ∧ startsWith roundMarker (gR k) = false) :
    lineCount roundMarker (logUpTo t0 m1 m2 oR gR N ++ createSummary m1 m2 R t0) = N := by
  unfold lineCount
  obtain ⟨Z, hZ⟩ := logUpTo_header_append t0 m1 m2 oR gR N
  have hsw : startsWith roundMarker
      (logUpTo t0 m1 m2 oR gR N ++ createSummary m1 m2 R t0) = false := by
    rw [hZ, List.append_assoc]
    rw [show roundMarker = 35 :: 35 :: (32 :: jstr "Round ") from rfl]
    exact startsWith_marker_headerStr (32 :: jstr "Round ") t0 _
  rw [hsw]
  rw [countSub_logUpTo_round t0 m1 m2 oR gR ht hm1 hm2 N (createSummary m1 m2 R t0) hresp]
  rw [countSub_cons_newline]
  rw [startsWith_roundMarker_summary m1 m2 R t0]
  rw [countSub_marker_summary roundMarker (by decide) (35 :: 32 :: jstr "Round ") rfl
    (by decide) m1 m2 hm1 hm2 R t0 ht]
  simp

theorem lineCount_round_fail_openai (t0 m1 m2 : List Nat) (oR gR : Nat → List Nat)
    (s : Nat) (e : List Nat)
    (ht : countSub (10 :: roundMarker) t0 = 0) (hm1 : 10 ∉ m1) (hm2 : 10 ∉ m2)
    (he : countSub (10 :: roundMarker) e = 0)
    (hresp : ∀ k, 1 ≤ k → k ≤ s →
      countSub (10 :: roundMarker) (oR k) = 0 ∧ startsWith roundMarker (oR k) = false ∧
      countSub (10 :: roundMarker) (gR k) = 0 ∧ startsWith roundMarker (gR k) = false) :
    lineCount roundMarker
      (recoveredStr e (logUpTo t0 m1 m2 oR gR s ++ roundHeaderStr (s + 1))) = s + 1 := by
  unfold lineCount
  rw [show roundMarker = 35 :: (35 :: 32 :: jstr "Round ") from rfl]
  rw [startsWith_marker_recovered (35 :: 32 :: jstr "Round ") e _]
  rw [← show roundMarker = 35 :: (35 :: 32 :: jstr "Round ") from rfl]
  rw [countSub_recovered roundMarker (by decide) (35 :: 32 :: jstr "Round ") rfl e _ he]
  obtain ⟨Z, hZ⟩ := logUpTo_header_append t0 m1 m2 oR gR s
  have hsw : startsWith roundMarker
      (logUpTo t0 m1 m2 oR gR s ++ roundHeaderStr (s + 1)) = false := by
    rw [hZ, List.append_assoc]
    rw [show roundMarker = 35 :: 35 :: (32 :: jstr "Round ") from rfl]
    exact startsWith_marker_headerStr (32 :: jstr "Round ") t0 _
  rw [hsw]
  rw [countSub_logUpTo_round t0 m1 m2 oR gR ht hm1 hm2 s (roundHeaderStr (s + 1)) hresp]
  rw [countSub_cons_newline]
  have hrh : startsWith roundMarker (roundHeaderStr (s + 1)) = true := by
    have h := startsWith_roundMarker_roundHeader (s + 1) []
    rwa [List.append_nil] at h
  rw [hrh]
  rw [countSub_roundHeader_alone roundMarker (by decide) (35 :: 32 :: jstr "Round ") rfl (s + 1)]
  simp

theorem lineCount_round_fail_gemini (t0 m1 m2 : List Nat) (oR gR : Nat → List Nat)
    (s : Nat) (e : List Nat)
    (ht : countSub (10 :: roundMarker) t0 = 0) (hm1 : 10 ∉ m1) (hm2 : 10 ∉ m2)
    (he : countSub (10 :: roundMarker) e = 0)
    (ho : countSub (10 :: roundMarker) (oR (s + 1)) = 0)
    (hos : startsWith roundMarker (oR (s + 1)) = false)
    (hresp : ∀ k, 1 ≤ k → k ≤ s →
      countSub (10 :: roundMarker) (oR k) = 0 ∧ startsWith roundMarker (oR k) = false ∧
      countSub (10 :: roundMarker) (gR k) = 0 ∧ startsWith roundMarker (gR k) = false) :
    lineCount roundMarker
      (recoveredStr e (logUpTo t0 m1 m2 oR gR s ++ roundHeaderStr (s + 1) ++
        modelSection m1 (oR (s + 1)))) = s + 1 := by
  unfold lineCount
  rw [show roundMarker = 35 :: (35 :: 32 :: jstr "Round ") from rfl]
  rw [startsWith_marker_recovered (35 :: 32 :: jstr "Round ") e _]
  rw [← show roundMarker = 35 :: (35 :: 32 :: jstr "Round ") from rfl]
  rw [countSub_recovered roundMarker (by decide) (35 :: 32 :: jstr "Round ") rfl e _ he]
  rw [show logUpTo t0 m1 m2 oR gR s ++ roundHeaderStr (s + 1) ++
      modelSection m1 (oR (s + 1)) = logUpTo t0 m1 m2 oR gR s ++
      (roundHeaderStr (s + 1) ++ modelSection m1 (oR (s + 1))) from by
    simp [List.append_assoc]]
  obtain ⟨Z, hZ⟩ := logUpTo_header_append t0 m1 m2 oR gR s
  have hsw : startsWith roundMarker (logUpTo t0 m1 m2 oR gR s ++
      (roundHeaderStr (s + 1) ++ modelSection m1 (oR (s + 1)))) = false := by
    rw [hZ, List.append_assoc]
    rw [show roundMarker = 35 :: 35 :: (32 :: jstr "Round ") from rfl]
    exact startsWith_marker_headerStr (32 :: jstr "Round ") t0 _
  rw [hsw]
  rw [countSub_logUpTo_round t0 m1 m2 oR gR ht hm1 hm2 s
    (roundHeaderStr (s + 1) ++ modelSection m1 (oR (s + 1))) hresp]
  rw [countSub_cons_newline]
  rw [startsWith_roundMarker_roundHeader (s + 1) (modelSection m1 (oR (s + 1)))]
  rw [countSub_roundHeader roundMarker (by decide) (35 :: 32 :: jstr "Round ") rfl (s + 1)
    (modelSection m1 (oR (s + 1)))]
  rw [countSub_cons_newline]
  have hms : startsWith roundMarker (modelSection m1 (oR (s + 1))) = false := by
    have h := startsWith_marker_modelSection (32 :: jstr "Round ") m1 (oR (s + 1)) []
    rw [List.append_nil] at h
    exact h
  rw [hms]
  rw [countSub_modelSection_alone roundMarker (by decide) (35 :: 32 :: jstr "Round ") rfl
    m1 (oR (s + 1)) hm1 ho hos]
  simp

theorem lineCount_summary_fail_openai (t0 m1 m2 : List Nat) (oR gR : Nat → List Nat)
    (s : Nat) (e : List Nat)
    (ht : countSub (10 :: summaryMarker) t0 = 0) (hm1 : 10 ∉ m1) (hm2 : 10 ∉ m2)
    (he : countSub (10 :: summaryMarker) e = 0)
    (hresp : ∀ k, 1 ≤ k → k ≤ s →
      countSub (10 :: summaryMarker) (oR k) = 0 ∧
      startsWith summaryMarker (oR k) = false ∧
      countSub (10 :: summaryMarker) (gR k) = 0 ∧
      startsWith summaryMarker (gR k) = false) :
    lineCount summaryMarker
      (recoveredStr e (logUpTo t0 m1 m2 oR gR s ++ roundHeaderStr (s + 1))) = 0 := by
  unfold lineCount
  rw [show summaryMarker = 35 :: (35 :: 32 :: jstr "Summary") from rfl]
  rw [startsWith_marker_recovered (35 :: 32 :: jstr "Summary") e _]
  rw [← show summaryMarker = 35 :: (35 :: 32 :: jstr "Summary") from rfl]
  rw [countSub_recovered summaryMarker (by decide) (35 :: 32 :: jstr "Summary") rfl e _ he]
  obtain ⟨Z, hZ⟩ := logUpTo_header_append t0 m1 m2 oR gR s
  have hsw : startsWith summaryMarker
      (logUpTo t0 m1 m2 oR gR s ++ roundHeaderStr (s + 1)) = false := by
    rw [hZ, List.append_assoc]
    rw [show summaryMarker = 35 :: 35 :: (32 :: jstr "Summary") from rfl]
    exact startsWith_marker_headerStr (32 :: jstr "Summary") t0 _
  rw [hsw]
  rw [countSub_logUpTo_summary t0 m1 m2 oR gR ht hm1 hm2 s (roundHeaderStr (s + 1)) hresp]
  rw [countSub_cons_newline]
  have hrh : startsWith summaryMarker (roundHeaderStr (s + 1)) = false := by
    have h := startsWith_summaryMarker_roundHeader (s + 1) []
    rwa [List.append_nil] at h
  rw [hrh]
  rw [countSub_roundHeader_alone summaryMarker (by decide) (35 :: 32 :: jstr "Summary")
    rfl (s + 1)]
  simp

theorem lineCount_summary_fail_gemini (t0 m1 m2 : List Nat) (oR gR : Nat → List Nat)
    (s : Nat) (e : List Nat)
    (ht : countSub (10 :: summaryMarker) t0 = 0) (hm1 : 10 ∉ m1) (hm2 : 10 ∉ m2)
    (he : countSub (10 :: summaryMarker) e = 0)
    (ho : countSub (10 :: summaryMarker) (oR (s + 1)) = 0)
    (hos : startsWith summaryMarker (oR (s + 1)) = false)
    (hresp : ∀ k, 1 ≤ k → k ≤ s →
      countSub (10 :: summaryMarker) (oR k) = 0 ∧
      startsWith summaryMarker (oR k) = false ∧
      countSub (10 :: summaryMarker) (gR k) = 0 ∧
      startsWith summaryMarker (gR k) = false) :
    lineCount summaryMarker
      (recoveredStr e (logUpTo t0 m1 m2 oR gR s ++ roundHeaderStr (s + 1) ++
        modelSection m1 (oR (s + 1)))) = 0 := by
  unfold lineCount
  rw [show summaryMarker = 35 :: (35 :: 32 :: jstr "Summary") from rfl]
  rw [startsWith_marker_recovered (35 :: 32 :: jstr "Summary") e _]
  rw [← show summaryMarker = 35 :: (35 :: 32 :: jstr "Summary") from rfl]
  rw [countSub_recovered summaryMarker (by decide) (35 :: 32 :: jstr "Summary") rfl e _ he]
  rw [show logUpTo t0 m1 m2 oR gR s ++ roundHeaderStr (s + 1) ++
      modelSection m1 (oR (s + 1)) = logUpTo t0 m1 m2 oR gR s ++
      (roundHeaderStr (s + 1) ++ modelSection m1 (oR (s + 1))) from by
    simp [List.append_assoc]]
  obtain ⟨Z, hZ⟩ := logUpTo_header_append t0 m1 m2 oR gR s
  have hsw : startsWith summaryMarker (logUpTo t0 m1 m2 oR gR s ++
      (roundHeaderStr (s + 1) ++ modelSection m1 (oR (s + 1)))) = false := by
    rw [hZ, List.append_assoc]
    rw [show summaryMarker = 35 :: 35 :: (32 :: jstr "Summary") from rfl]
    exact startsWith_marker_headerStr (32 :: jstr "Summary") t0 _
  rw [hsw]
  rw [countSub_logUpTo_summary t0 m1 m2 oR gR ht hm1 hm2 s
    (roundHeaderStr (s + 1) ++ modelSection m1 (oR (s + 1))) hresp]
  rw [countSub_cons_newline]
  rw [startsWith_summaryMarker_roundHeader (s + 1) (modelSection m1 (oR (s + 1)))]
  rw [countSub_roundHeader summaryMarker (by decide) (35 :: 32 :: jstr "Summary") rfl (s + 1)
    (modelSection m1 (oR (s + 1)))]
  rw [countSub_cons_newline]
  have hms : startsWith summaryMarker (modelSection m1 (oR (s + 1))) = false := by
    have h := startsWith_marker_modelSection (32 :: jstr "Summary") m1 (oR (s + 1)) []
    rw [List.append_nil] at h
    exact h
  rw [hms]
  rw [countSub_modelSection_alone summaryMarker (by decide) (35 :: 32 :: jstr "Summary") rfl
    m1 (oR (s + 1)) hm1 ho hos]
  simp

set_option maxRecDepth 1000000 in
/-- C3 fails as stated: with one effective round, no provider failure, and a
Gemini response that itself contains a line starting with `## Round `, the
returned transcript contains two round-header lines rather than exactly
one. -/
theorem claim_C3_counterexample :
    loopIterations (effectiveRounds (some (JsNum.num 1))) = 1 ∧
    (match (conductWallBounce
        ⟨true, true, fun _ => Except.ok (jstr "A"),
         fun _ => Except.ok (jstr "hi\n## Round 2 fake")⟩
        (some [97]) [109] [110] (some (JsNum.num 1)) (some (JsNum.num 1))).1 with
      | WBOutcome.returned t => lineCount roundMarker t
      | WBOutcome.raised _ => 0) = 2 :=
  ⟨rfl, by decide⟩

/-- C3 (amended): provided the topic and the provider outputs contain no line
starting with `## Round ` (and outputs do not start with one), the model
names contain no newline, and any thrown message contains no such line
either, the transcript of a run with no failure contains exactly
`effectiveRounds` round-header lines, and the transcript of a run that fails
at round `r` contains exactly `r` round-header lines — the headers written
before the failure point. -/
theorem claim_C3_round_header_count (P : Providers) (topic : Option (List Nat))
    (m1 m2 t0 : List Nat) (rounds temperature : Option JsNum)
    (oR gR : Nat → List Nat) (N : Nat)
    (h1 : P.openaiAvailable = true) (h2 : P.geminiAvailable = true)
    (hs : validateAndSanitizeInput topic 1000 = Except.ok t0)
    (hN : loopIterations (effectiveRounds rounds) = N)
    (ht : countSub (10 :: roundMarker) t0 = 0) (hm1 : 10 ∉ m1) (hm2 : 10 ∉ m2)
    (hclean : ∀ k, 1 ≤ k → k ≤ N →
      countSub (10 :: roundMarker) (oR k) = 0 ∧ startsWith roundMarker (oR k) = false ∧
      countSub (10 :: roundMarker) (gR k) = 0 ∧ startsWith roundMarker (gR k) = false) :
    ((∀ k, 1 ≤ k → k ≤ N →
        P.openaiResult k = Except.ok (oR k) ∧ P.geminiResult k = Except.ok (gR k)) →
      conductWallBounce P topic m1 m2 rounds temperature =
        (WBOutcome.returned (logUpTo t0 m1 m2 oR gR N ++
          createSummary m1 m2 (effectiveRounds rounds) t0),
         callsUpTo t0 oR gR (effectiveTemperature temperature) N) ∧
      lineCount roundMarker (logUpTo t0 m1 m2 oR gR N ++
        createSummary m1 m2 (effectiveRounds rounds) t0) = N) ∧
    (∀ r e, 1 ≤ r → r ≤ N →
      (∀ k, 1 ≤ k → k < r →
        P.openaiResult k = Except.ok (oR k) ∧ P.geminiResult k = Except.ok (gR k)) →
      countSub (10 :: roundMarker) e = 0 →
      (P.openaiResult r = Except.error e →
        conductWallBounce P topic m1 m2 rounds temperature =
          (WBOutcome.returned (recoveredStr e
            (logUpTo t0 m1 m2 oR gR (r - 1) ++ roundHeaderStr r)),
           callsUpTo t0 oR gR (effectiveTemperature temperature) (r - 1) ++
             [CallEvent.openaiCall (convAt t0 oR gR r)
               (effectiveTemperature temperature) (JsNum.num 1500)]) ∧
        lineCount roundMarker (recoveredStr e
          (logUpTo t0 m1 m2 oR gR (r - 1) ++ roundHeaderStr r)) = r) ∧
      (P.openaiResult r = Except.ok (oR r) → P.geminiResult r = Except.error e →
        conductWallBounce P topic m1 m2 rounds temperature =
          (WBOutcome.returned (recoveredStr e
            (logUpTo t0 m1 m2 oR gR (r - 1) ++ roundHeaderStr r ++
              modelSection m1 (oR r))),
           callsUpTo t0 oR gR (effectiveTemperature temperature) (r - 1) ++
             [CallEvent.openaiCall (convAt t0 oR gR r)
               (effectiveTemperature temperature) (JsNum.num 1500),
              CallEvent.geminiCall (createGeminiPrompt (oR r))
               (effectiveTemperature temperature) (JsNum.num 1500)]) ∧
        lineCount roundMarker (recoveredStr e
          (logUpTo t0 m1 m2 oR gR (r - 1) ++ roundHeaderStr r ++
            modelSection m1 (oR r))) = r)) := by
  constructor
  · intro hok
    constructor
    · have hrun := roundLoop_full_success P m1 m2 t0 (effectiveTemperature temperature)
        oR gR N hok
      exact conductWallBounce_loopRes P topic m1 m2 t0 rounds temperature none
        (logUpTo t0 m1 m2 oR gR N) (callsUpTo t0 oR gR (effectiveTemperature temperature) N)
        h1 h2 hs (by rw [hN]; exact hrun)
    · exact lineCount_round_success t0 m1 m2 oR gR N (effectiveRounds rounds) ht hm1 hm2 hclean
  · intro r e hr1 hrN hok he
    obtain ⟨s, rfl⟩ : ∃ s, r = s + 1 := ⟨r - 1, by omega⟩
    constructor
    · intro hfail
      constructor
      · have hrun := roundLoop_fail_openai P m1 m2 t0 (effectiveTemperature temperature)
          oR gR N (s + 1) e hr1 hrN hok hfail
        exact conductWallBounce_loopRes P topic m1 m2 t0 rounds temperature (some e)
          (logUpTo t0 m1 m2 oR gR (s + 1 - 1) ++ roundHeaderStr (s + 1))
          (callsUpTo t0 oR gR (effectiveTemperature temperature) (s + 1 - 1) ++
            [CallEvent.openaiCall (convAt t0 oR gR (s + 1))
              (effectiveTemperature temperature) (JsNum.num 1500)])
          h1 h2 hs (by rw [hN]; exact hrun)
      · have hcount := lineCount_round_fail_openai t0 m1 m2 oR gR s e ht hm1 hm2 he
          (fun k hk1 hk2 => hclean k hk1 (by omega))
        rw [show s + 1 - 1 = s from rfl]
        exact hcount
    · intro hoa hfail
      constructor
      · have hrun := roundLoop_fail_gemini P m1 m2 t0 (effectiveTemperature temperature)
          oR gR N (s + 1) e hr1 hrN hok hoa hfail
        exact conductWallBounce_loopRes P topic m1 m2 t0 rounds temperature (some e)
          (logUpTo t0 m1 m2 oR gR (s + 1 - 1) ++ roundHeaderStr (s + 1) ++
            modelSection m1 (oR (s + 1)))
          (callsUpTo t0 oR gR (effectiveTemperature temperature) (s + 1 - 1) ++
            [CallEvent.openaiCall (convAt t0 oR gR (s + 1))
              (effectiveTemperature temperature) (JsNum.num 1500),
             CallEvent.geminiCall (createGeminiPrompt (oR (s + 1)))
              (effectiveTemperature temperature) (JsNum.num 1500)])
          h1 h2 hs (by rw [hN]; exact hrun)
      · have hko := hclean (s + 1) (by omega) (by omega)
        have hcount := lineCount_round_fail_gemini t0 m1 m2 oR gR s e ht hm1 hm2 he
          hko.1 hko.2.1 (fun k hk1 hk2 => hclean k hk1 (by omega))
        rw [show s + 1 - 1 = s from rfl]
        exact hcount

set_option maxRecDepth 1000000 in
/-- Witness for the amended C3: a clean two-round run has exactly two
round-header lines; a run whose OpenAI call throws in round 1 yields a
recovered transcript with exactly one round-header line. -/
theorem claim_C3_round_header_count_witness :
    lineCount roundMarker
      (logUpTo [97] [109] [110] (fun _ => jstr "A") (fun _ => jstr "B") 2 ++
        createSummary [109] [110] (effectiveRounds (some (JsNum.num 2))) [97]) = 2 ∧
    lineCount roundMarker (recoveredStr (jstr "boom")
      (logUpTo [97] [109] [110] (fun _ => jstr "A") (fun _ => jstr "B") 0 ++
        roundHeaderStr 1)) = 1 := by
  have hA := claim_C3_round_header_count
    ⟨true, true, fun _ => Except.ok (jstr "A"), fun _ => Except.ok (jstr "B")⟩
    (some [97]) [109] [110] [97] (some (JsNum.num 2)) (some (JsNum.num 1))
    (fun _ => jstr "A") (fun _ => jstr "B") 2 rfl rfl (by decide) (by decide) (by decide)
    (by decide) (by decide)
    (fun k _ _ =>
      ⟨show countSub (10 :: roundMarker) (jstr "A") = 0 by decide,
       show startsWith roundMarker (jstr "A") = false by decide,
       show countSub (10 :: roundMarker) (jstr "B") = 0 by decide,
       show startsWith roundMarker (jstr "B") = false by decide⟩)
  have hB := claim_C3_round_header_count
    ⟨true, true, fun _ => Except.error (jstr "boom"), fun _ => Except.ok (jstr "B")⟩
    (some [97]) [109] [110] [97] (some (JsNum.num 2)) (some (JsNum.num 1))
    (fun _ => jstr "A") (fun _ => jstr "B") 2 rfl rfl (by decide) (by decide) (by decide)
    (by decide) (by decide)
    (fun k _ _ =>
      ⟨show countSub (10 :: roundMarker) (jstr "A") = 0 by decide,
       show startsWith roundMarker (jstr "A") = false by decide,
       show countSub (10 :: roundMarker) (jstr "B") = 0 by decide,
       show startsWith roundMarker (jstr "B") = false by decide⟩)
  refine ⟨(hA.1 (fun k _ _ => ⟨rfl, rfl⟩)).2, ?_⟩
  have h := (hB.2 1 (jstr "boom") (by omega) (by omega)
    (fun k hk1 hk2 => absurd hk2 (by omega)) (by decide)).1 rfl
  exact h.2

set_option maxRecDepth 1000000 in
/-- C1 fails as stated: when the thrown error's message itself contains a
line starting with `## Summary`, the recovered transcript DOES contain a
summary-section line. -/
theorem claim_C1_counterexample :
    isRaised (conductWallBounce
        ⟨true, true, fun _ => Except.error (jstr "x\n## Summary\nfake"),
         fun _ => Except.ok (jstr "B")⟩
        (some [97]) [109] [110] (some (JsNum.num 2)) (some (JsNum.num 1))).1 = false ∧
    (match (conductWallBounce
        ⟨true, true, fun _ => Except.error (jstr "x\n## Summary\nfake"),
         fun _ => Except.ok (jstr "B")⟩
        (some [97]) [109] [110] (some (JsNum.num 2)) (some (JsNum.num 1))).1 with
      | WBOutcome.returned t => lineCount summaryMarker t
      | WBOutcome.raised _ => 0) = 1 :=
  ⟨by decide, by decide⟩

/-- C1 (amended): if a provider call throws at round `r`, the loop stops
immediately — the call list is exactly the calls of rounds `1..r-1` plus the
failing round's calls, so nothing is retried and no later round runs — and
`conductWallBounce` returns (does not raise) a string that contains the
thrown message and the whole discussion log accumulated so far; provided the
topic, model names, provider outputs and the thrown message contain no
summary-section line, the result contains no summary-section line. -/
theorem claim_C1_recovered_failure_amended (P : Providers) (topic : Option (List Nat))
    (m1 m2 t0 : List Nat) (rounds temperature : Option JsNum)
    (oR gR : Nat → List Nat) (N r : Nat) (e : List Nat)
    (h1 : P.openaiAvailable = true) (h2 : P.geminiAvailable = true)
    (hs : validateAndSanitizeInput topic 1000 = Except.ok t0)
    (hN : loopIterations (effectiveRounds rounds) = N)
    (hr1 : 1 ≤ r) (hrN : r ≤ N)
    (hok : ∀ k, 1 ≤ k → k < r →
      P.openaiResult k = Except.ok (oR k) ∧ P.geminiResult k = Except.ok (gR k))
    (hm1 : 10 ∉ m1) (hm2 : 10 ∉ m2)
    (hts : countSub (10 :: summaryMarker) t0 = 0)
    (he : countSub (10 :: summaryMarker) e = 0)
    (hclean : ∀ k, 1 ≤ k → k ≤ N →
      countSub (10 :: summaryMarker) (oR k) = 0 ∧
      startsWith summaryMarker (oR k) = false ∧
      countSub (10 :: summaryMarker) (gR k) = 0 ∧
      startsWith summaryMarker (gR k) = false) :
    (P.openaiResult r = Except.error e →
      conductWallBounce P topic m1 m2 rounds temperature =
        (WBOutcome.returned (recoveredStr e
          (logUpTo t0 m1 m2 oR gR (r - 1) ++ roundHeaderStr r)),
         callsUpTo t0 oR gR (effectiveTemperature temperature) (r - 1) ++
           [CallEvent.openaiCall (convAt t0 oR gR r)
             (effectiveTemperature temperature) (JsNum.num 1500)]) ∧
      containsSub e (recoveredStr e
        (logUpTo t0 m1 m2 oR gR (r - 1) ++ roundHeaderStr r)) = true ∧
      containsSub (logUpTo t0 m1 m2 oR gR (r - 1) ++ roundHeaderStr r)
        (recoveredStr e (logUpTo t0 m1 m2 oR gR (r - 1) ++ roundHeaderStr r)) = true ∧
      (callsUpTo t0 oR gR (effectiveTemperature temperature) (r - 1) ++
        [CallEvent.openaiCall (convAt t0 oR gR r)
          (effectiveTemperature temperature) (JsNum.num 1500)]).length = 2 * (r - 1) + 1 ∧
      lineCount summaryMarker (recoveredStr e
        (logUpTo t0 m1 m2 oR gR (r - 1) ++ roundHeaderStr r)) = 0) ∧
    (P.openaiResult r = Except.ok (oR r) → P.geminiResult r = Except.error e →
      conductWallBounce P topic m1 m2 rounds temperature =
        (WBOutcome.returned (recoveredStr e
          (logUpTo t0 m1 m2 oR gR (r - 1) ++ roundHeaderStr r ++
            modelSection m1 (oR r))),
         callsUpTo t0 oR gR (effectiveTemperature temperature) (r - 1) ++
           [CallEvent.openaiCall (convAt t0 oR gR r)
             (effectiveTemperature temperature) (JsNum.num 1500),
            CallEvent.geminiCall (createGeminiPrompt (oR r))
             (effectiveTemperature temperature) (JsNum.num 1500)]) ∧
      containsSub e (recoveredStr e
        (logUpTo t0 m1 m2 oR gR (r - 1) ++ roundHeaderStr r ++
          modelSection m1 (oR r))) = true ∧
      containsSub (logUpTo t0 m1 m2 oR gR (r - 1) ++ roundHeaderStr r ++
          modelSection m1 (oR r))
        (recoveredStr e (logUpTo t0 m1 m2 oR gR (r - 1) ++ roundHeaderStr r ++
          modelSection m1 (oR r))) = true ∧
      (callsUpTo t0 oR gR (effectiveTemperature temperature) (r - 1) ++
        [CallEvent.openaiCall (convAt t0 oR gR r)
          (effectiveTemperature temperature) (JsNum.num 1500),
         CallEvent.geminiCall (createGeminiPrompt (oR r))
          (effectiveTemperature temperature) (JsNum.num 1500)]).length = 2 * (r - 1) + 2 ∧
      lineCount summaryMarker (recoveredStr e
        (logUpTo t0 m1 m2 oR gR (r - 1) ++ roundHeaderStr r ++
          modelSection m1 (oR r))) = 0) := by
  have hcontains : ∀ (msg L : List Nat), containsSub msg (recoveredStr msg L) = true := by
    intro msg L
    rw [show recoveredStr msg L = jstr "壁打ちセッション中にエラーが発生しました: " ++
        (msg ++ (jstr "\n\n現在までの議論:\n" ++ L)) from by
      unfold recoveredStr
      simp [List.append_assoc]]
    exact containsSub_sandwich _ msg _
  have hcontainsL : ∀ (msg L : List Nat), containsSub L (recoveredStr msg L) = true := by
    intro msg L
    have h := containsSub_sandwich (jstr "壁打ちセッション中にエラーが発生しました: " ++
      (msg ++ jstr "\n\n現在までの議論:\n")) L []
    rw [List.append_nil] at h
    rw [show recoveredStr msg L = jstr "壁打ちセッション中にエラーが発生しました: " ++
        (msg ++ jstr "\n\n現在までの議論:\n") ++ L from by
      unfold recoveredStr
      simp [List.append_assoc]]
    exact h
  obtain ⟨s, rfl⟩ : ∃ s, r = s + 1 := ⟨r - 1, by omega⟩
  constructor
  · intro hfail
    refine ⟨?_, hcontains e _, hcontainsL e _, ?_, ?_⟩
    · have hrun := roundLoop_fail_openai P m1 m2 t0 (effectiveTemperature temperature)
        oR gR N (s + 1) e hr1 hrN hok hfail
      exact conductWallBounce_loopRes P topic m1 m2 t0 rounds temperature (some e)
        (logUpTo t0 m1 m2 oR gR (s + 1 - 1) ++ roundHeaderStr (s + 1))
        (callsUpTo t0 oR gR (effectiveTemperature temperature) (s + 1 - 1) ++
          [CallEvent.openaiCall (convAt t0 oR gR (s + 1))
            (effectiveTemperature temperature) (JsNum.num 1500)])
        h1 h2 hs (by rw [hN]; exact hrun)
    · rw [List.length_append, callsUpTo_length]
      simp
    · have hcount := lineCount_summary_fail_openai t0 m1 m2 oR gR s e hts hm1 hm2 he
        (fun k hk1 hk2 => hclean k hk1 (by omega))
      rw [show s + 1 - 1 = s from rfl]
      exact hcount
  · intro hoa hfail
    refine ⟨?_, hcontains e _, hcontainsL e _, ?_, ?_⟩
    · have hrun := roundLoop_fail_gemini P m1 m2 t0 (effectiveTemperature temperature)
        oR gR N (s + 1) e hr1 hrN hok hoa hfail
      exact conductWallBounce_loopRes P topic m1 m2 t0 rounds temperature (some e)
        (logUpTo t0 m1 m2 oR gR (s + 1 - 1) ++ roundHeaderStr (s + 1) ++
          modelSection m1 (oR (s + 1)))
        (callsUpTo t0 oR gR (effectiveTemperature temperature) (s + 1 - 1) ++
          [CallEvent.openaiCall (convAt t0 oR gR (s + 1))
            (effectiveTemperature temperature) (JsNum.num 1500),
           CallEvent.geminiCall (createGeminiPrompt (oR (s + 1)))
            (effectiveTemperature temperature) (JsNum.num 1500)])
        h1 h2 hs (by rw [hN]; exact hrun)
    · rw [List.length_append, callsUpTo_length]
      simp
    · have hks := hclean (s + 1) (by omega) (by omega)
      have hcount := lineCount_summary_fail_gemini t0 m1 m2 oR gR s e hts hm1 hm2 he
        hks.1 hks.2.1 (fun k hk1 hk2 => hclean k hk1 (by omega))
      rw [show s + 1 - 1 = s from rfl]
      exact hcount

set_option maxRecDepth 1000000 in
/-- Witness for the amended C1: Gemini throws on round 2 after a clean round
1; the recovered transcript contains the thrown message and no
summary-section line. -/
theorem claim_C1_recovered_failure_amended_witness :
    containsSub (jstr "boom") (recoveredStr (jstr "boom")
      (logUpTo [97] [109] [110] (fun _ => jstr "A") (fun _ => jstr "B") 1 ++
        roundHeaderStr 2 ++ modelSection [109] (jstr "A"))) = true ∧
    lineCount summaryMarker (recoveredStr (jstr "boom")
      (logUpTo [97] [109] [110] (fun _ => jstr "A") (fun _ => jstr "B") 1 ++
        roundHeaderStr 2 ++ modelSection [109] (jstr "A"))) = 0 := by
  have h := (claim_C1_recovered_failure_amended
    ⟨true, true, fun _ => Except.ok (jstr "A"),
     fun k => if k = 2 then Except.error (jstr "boom") else Except.ok (jstr "B")⟩
    (some [97]) [109] [110] [97] (some (JsNum.num 2)) (some (JsNum.num 1))
    (fun _ => jstr "A") (fun _ => jstr "B") 2 2 (jstr "boom")
    rfl rfl (by decide) (by decide) (by omega) (by omega)
    (fun k hk1 hk2 => by
      have hk : k = 1 := by omega
      subst hk
      exact ⟨rfl, by decide⟩)
    (by decide) (by decide) (by decide) (by decide)
    (fun k _ _ =>
      ⟨show countSub (10 :: summaryMarker) (jstr "A") = 0 by decide,
       show startsWith summaryMarker (jstr "A") = false by decide,
       show countSub (10 :: summaryMarker) (jstr "B") = 0 by decide,
       show startsWith summaryMarker (jstr "B") = false by decide⟩)).2
    rfl (by decide)
  exact ⟨h.2.1, h.2.2.2.2⟩
